import Mathlib

/-!
# The Smart Path: preference store and FAQ accordion of `src/app.js`

A shallow embedding of the `App` class of `src/app.js`.  The browser document
is an explicit record (`Page`); every method of `App` that the specification
talks about is a function on pages.

Conventions of the embedding

* `document.getElementById` / `querySelector` may return `null`; such elements
  are `Option`s, and a property access on `null` is the `threw` outcome.
* A method that can raise returns an `Outcome`: the page it left behind and
  whether it returned or raised.  JavaScript does not roll state back on an
  exception, so the page of a `threw` outcome holds every write done before
  the raise.
* `.faq__item` elements are numbered in document order; items are only ever
  appended (by `addFAQItem`, at the end of `.faq__container`, which is taken
  to be the last place of the document holding FAQ items), so an index is a
  stable identity and the static `NodeList` captured by a listener is the
  initial segment of that length.
* Elements matched by `[data-ar][data-en]` are kept in a flat list: they are
  taken to be leaves (none contains another one, nor the language toggle).
* `addFAQItem` assigns a string to `innerHTML`.  `addFAQItemMarkup` runs the
  HTML parser of the platform on that string, modelled after the HTML standard
  on a subset of its input (`none` outside it); `addFAQItem` takes the template
  as written, one question button and one answer, which is what the parser
  gives when the four arguments are plain text (`addFAQItemMarkup_plain`), as
  are the texts the program itself passes (`addAdditionalFAQsMarkup_eq`).  The
  histories (`Reachable`, `Settled`) are built from `addFAQItem`.
* Timers (`setTimeout`) that only fade elements in or remove ripple spans are
  not run; `requestAnimationFrame` callbacks are kept in `Page.frames`.
* A keydown on a question runs the keydown listeners the program registered
  on it; each calls `preventDefault()`, so the control's own activation on
  `Enter` or a space does not add a click of its own.
* A store whose `setItem` raises is `Storage.writable = false`; no operation of
  the program changes that flag.
* The layout engine is the environment: `Answer.scrollHeight` is what it
  reports, and `relayout` is a change of it.
-/

namespace App

/-! ## Data model -/

/-- Inline decoration written by `addButtonRipple`: two style properties and
the number of ripple `<span>`s currently appended. -/
structure Decor where
  position : String
  overflow : String
  ripples : Nat
deriving DecidableEq, Repr

/-- A control that carries no ripple decoration. -/
def plainDecor : Decor :=
  { position := "", overflow := "", ripples := 0 }

/-- An element of the document seen through `getAttribute` and `textContent`. -/
structure Element where
  attrs : List (String × String)
  textContent : String
deriving DecidableEq, Repr

/-- The `#header` element: its `data-theme` attribute and inline background. -/
structure Header where
  dataTheme : Option String
  backgroundColor : String
deriving DecidableEq, Repr

/-- The `<i>` inside `#theme-toggle`. -/
structure Icon where
  className : String
  color : String
deriving DecidableEq, Repr

/-- The `#theme-toggle` element; `icon` is `querySelector('i')` on it. -/
structure ThemeToggle where
  icon : Option Icon
  decor : Decor
deriving DecidableEq, Repr

/-- The `#lang-toggle` element. -/
structure LangToggle where
  textContent : String
  decor : Decor
deriving DecidableEq, Repr

/-- The two `localStorage` entries the program uses; `writable = false` is a
store whose `setItem` raises. -/
structure Storage where
  theme : Option String
  language : Option String
  writable : Bool
deriving DecidableEq, Repr

/-- A dispatched `CustomEvent`: its type and the value in its `detail`. -/
structure Notification where
  name : String
  detail : String
deriving DecidableEq, Repr

/-- The closure of one click listener of `initializeFAQ`: the static
`faqItems` list it captured (the first `snapshot` items) and its `item`. -/
structure Handler where
  snapshot : Nat
  item : Nat
deriving DecidableEq, Repr

/-- A `.faq__question`: its click listeners in registration order, its keydown
listeners (each holds the index of the item whose question it clicks), and its
ripple decoration. -/
structure Question where
  clickHandlers : List Handler
  keydownHandlers : List Nat
  decor : Decor
deriving DecidableEq, Repr

/-- A `.faq__answer`: three inline style properties and the `scrollHeight`
the layout engine reports for it. -/
structure Answer where
  maxHeight : String
  overflow : String
  transition : String
  scrollHeight : Nat
deriving DecidableEq, Repr

/-- A `.faq__item`: the `active` class, its inline fade-in style, and the
results of `querySelector('.faq__question')` / `('.faq__answer')`. -/
structure FaqItem where
  active : Bool
  opacity : String
  transform : String
  question : Option Question
  answer : Option Answer
deriving DecidableEq, Repr

/-- A pending `requestAnimationFrame` callback of the click listener: the item
whose answer it resizes and the height measured when it was scheduled. -/
structure Frame where
  item : Nat
  height : Nat
deriving DecidableEq, Repr

/-- The `App` instance together with the document and the store it acts on. -/
structure Page where
  currentLang : String
  currentTheme : String
  lang : String
  dir : String
  colorScheme : Option String
  bodyTheme : Option String
  header : Option Header
  themeToggle : Option ThemeToggle
  langToggle : Option LangToggle
  title : String
  elements : List Element
  storage : Storage
  events : List Notification
  faqContainer : Bool
  faqItems : List FaqItem
  frames : List Frame
deriving DecidableEq, Repr

/-- How a call ended, with the page it left behind. -/
inductive Outcome where
  | returned (p : Page)
  | threw (p : Page)
deriving DecidableEq, Repr

/-- The page a call left behind, however it ended. -/
def Outcome.page : Outcome → Page
  | .returned p => p
  | .threw p => p

/-- Whether the call ended by raising. -/
def Outcome.raised : Outcome → Bool
  | .returned _ => false
  | .threw _ => true

/-! ## Ripple decoration -/

/-- The writes of `addButtonRipple(button)` on the button: `style.position`,
`style.overflow`, and one more ripple span appended. -/
def addButtonRipple (d : Decor) : Decor :=
  { d with position := "relative", overflow := "hidden", ripples := d.ripples + 1 }

/-! ## Theme -/

/-- `setTheme(theme)`. -/
def setTheme (theme : String) (p : Page) : Outcome :=
  let p := { p with currentTheme := theme }
  let p := { p with colorScheme := some theme, bodyTheme := some theme }
  let restyle (h : Header) : Header :=
    { h with
      dataTheme := some theme,
      backgroundColor :=
        if theme = "dark" then "rgba(38, 40, 40, 0.95)" else "rgba(255, 255, 253, 0.95)" }
  let p := { p with header := p.header.map restyle }
  match p.themeToggle with
  | none => .threw p
  | some themeToggle =>
    match themeToggle.icon with
    | none => .threw p
    | some _ =>
      let icon : Icon :=
        if theme = "dark" then { className := "fas fa-sun", color := "#32b4c6" }
        else { className := "fas fa-moon", color := "#21808d" }
      let p := { p with themeToggle := some { themeToggle with icon := some icon } }
      if p.storage.writable then
        let p := { p with storage := { p.storage with theme := some theme } }
        .returned { p with events := p.events ++ [Notification.mk "themeChanged" theme] }
      else .threw p

/-- The value of `localStorage.getItem(key) || fallback`: `null` and the empty
string are falsy. -/
def orDefault (stored : Option String) (fallback : String) : String :=
  match stored with
  | none => fallback
  | some v => if v = "" then fallback else v

/-- `initializeTheme()`. -/
def initializeTheme (p : Page) : Outcome :=
  let savedTheme := orDefault p.storage.theme "light"
  setTheme savedTheme p

/-- `toggleTheme()`: the ripple is added only when `setTheme` returned. -/
def toggleTheme (p : Page) : Outcome :=
  let newTheme := if p.currentTheme = "light" then "dark" else "light"
  match setTheme newTheme p with
  | .threw p => .threw p
  | .returned p =>
    match p.themeToggle with
    | none => .threw p
    | some t => .returned { p with themeToggle := some { t with decor := addButtonRipple t.decor } }

/-! ## Language -/

/-- ASCII lower-casing, as `getAttribute` applies to the name it is given. -/
def asciiLower (s : String) : String :=
  String.mk (s.data.map Char.toLower)

/-- `element.getAttribute(name)`. -/
def Element.getAttribute (e : Element) (name : String) : Option String :=
  e.attrs.lookup (asciiLower name)

/-- Whether the element matches the selector `[data-ar][data-en]`. -/
def Element.translatable (e : Element) : Bool :=
  (e.getAttribute "data-ar").isSome && (e.getAttribute "data-en").isSome

/-- The body of the `forEach` of `setLanguage` on one matched element. -/
def translate (lang : String) (e : Element) : Element :=
  match e.getAttribute ("data-" ++ lang) with
  | none => e
  | some text => if text = "" then e else { e with textContent := text }

/-- `setLanguage(lang)`. -/
def setLanguage (lang : String) (p : Page) : Outcome :=
  let p := { p with currentLang := lang }
  let p := { p with lang := lang, dir := if lang = "ar" then "rtl" else "ltr" }
  let p := { p with elements := p.elements.map fun (e : Element) =>
    if e.translatable then translate lang e else e }
  match p.langToggle with
  | none => .threw p
  | some langToggle =>
    let button : LangToggle :=
      { textContent := if lang = "ar" then "EN" else "عربي",
        decor := { langToggle.decor with ripples := 0 } }
    let p := { p with langToggle := some button }
    let p := { p with title :=
      if lang = "ar" then "The Smart Path - طريقك الذكي للدراسة"
      else "The Smart Path - Your Smart Path to Study" }
    if p.storage.writable then
      let p := { p with storage := { p.storage with language := some lang } }
      .returned { p with events := p.events ++ [Notification.mk "languageChanged" lang] }
    else .threw p

/-- `initializeLanguage()`. -/
def initializeLanguage (p : Page) : Outcome :=
  let savedLang := orDefault p.storage.language "ar"
  setLanguage savedLang p

/-- `toggleLanguage()`: the ripple is added only when `setLanguage` returned. -/
def toggleLanguage (p : Page) : Outcome :=
  let newLang := if p.currentLang = "ar" then "en" else "ar"
  match setLanguage newLang p with
  | .threw p => .threw p
  | .returned p =>
    match p.langToggle with
    | none => .threw p
    | some t => .returned { p with langToggle := some { t with decor := addButtonRipple t.decor } }

/-! ## FAQ accordion -/

/-- The write `classList.add('active')` / `classList.remove('active')`. -/
def setActive (b : Bool) (item : FaqItem) : FaqItem :=
  { item with active := b }

/-- The write `answer.style.maxHeight = v` on the item's answer, when it has one. -/
def setMaxHeight (v : String) (item : FaqItem) : FaqItem :=
  { item with answer := item.answer.map fun (a : Answer) => { a with maxHeight := v } }

/-- The body of the inner `forEach` of the click listener on an item other
than the listener's own: the class is removed, and the answer collapsed when
there is one. -/
def closeOther (otherItem : FaqItem) : FaqItem :=
  setMaxHeight "0px" (setActive false otherItem)

/-- The value of `answer.scrollHeight` for the answer of item `i`. -/
def measure (items : List FaqItem) (i : Nat) : Nat :=
  match items[i]? with
  | none => 0
  | some item =>
    match item.answer with
    | none => 0
    | some a => a.scrollHeight

/-- The ripple `addButtonRipple(question, e)` leaves on the item's question. -/
def rippleQuestion (item : FaqItem) : FaqItem :=
  { item with question := item.question.map fun (q : Question) =>
      { q with decor := addButtonRipple q.decor } }

/-- One run of a click listener registered by `initializeFAQ`.  A listener
exists only for an item with a question and an answer; the other branches are
there to make the function total. -/
def clickHandler (h : Handler) (p : Page) : Page :=
  match p.faqItems[h.item]? with
  | none => p
  | some item =>
    match item.question, item.answer with
    | some _, some _ =>
      let isActive := item.active
      let p := { p with faqItems := p.faqItems.mapIdx fun j (otherItem : FaqItem) =>
        if j < h.snapshot ∧ j ≠ h.item then closeOther otherItem else otherItem }
      let p :=
        if isActive then
          { p with faqItems :=
              p.faqItems.modify (fun it => setMaxHeight "0px" (setActive false it)) h.item }
        else
          let measuring :=
            p.faqItems.modify (fun it => setMaxHeight "none" (setActive true it)) h.item
          let scrollHeight := measure measuring h.item
          { p with
            faqItems := measuring.modify (setMaxHeight "0px") h.item,
            frames := p.frames ++ [Frame.mk h.item scrollHeight] }
      { p with faqItems := p.faqItems.modify rippleQuestion h.item }
    | _, _ => p

/-- One click on the question of item `i`: every click listener registered on
it runs, in registration order. -/
def click (i : Nat) (p : Page) : Page :=
  match p.faqItems[i]? with
  | none => p
  | some item =>
    match item.question with
    | none => p
    | some q => q.clickHandlers.foldl (fun page h => clickHandler h page) p

/-- One run of a keydown listener registered by `initializeFAQ`, `k` being the
item whose question the closure holds: on `Enter` or a space the question is
clicked. -/
def keydownHandler (key : String) (k : Nat) (p : Page) : Page :=
  if key = "Enter" ∨ key = " " then click k p else p

/-- One keydown with `key` on the question of item `i`: every keydown listener
registered on it runs, in registration order. -/
def keydown (key : String) (i : Nat) (p : Page) : Page :=
  match p.faqItems[i]? with
  | none => p
  | some item =>
    match item.question with
    | none => p
    | some q => q.keydownHandlers.foldl (fun page k => keydownHandler key k page) p

/-- The next pending animation-frame callback runs:
`answer.style.maxHeight = scrollHeight + 'px'`. -/
def animationFrame (p : Page) : Page :=
  match p.frames with
  | [] => p
  | f :: rest =>
    { p with
      frames := rest,
      faqItems := p.faqItems.modify (setMaxHeight (toString f.height ++ "px")) f.item }

/-- The answer of the item reports a new `scrollHeight`. -/
def setScrollHeight (height : Nat) (item : FaqItem) : FaqItem :=
  { item with answer := item.answer.map fun (a : Answer) => { a with scrollHeight := height } }

/-- The layout engine reports a new `scrollHeight` for the answer of item `i`,
as after a change of language or of width. -/
def relayout (i height : Nat) (p : Page) : Page :=
  { p with faqItems := p.faqItems.modify (setScrollHeight height) i }

/-- The body of the outer `forEach` of `initializeFAQ` on item `i`, `n` being
the length of the `faqItems` list the new listener captures. -/
def wire (n i : Nat) (item : FaqItem) : FaqItem :=
  match item.question, item.answer with
  | some q, some a =>
    { item with
      answer := some
        { a with
          maxHeight := "0px",
          overflow := "hidden",
          transition := "max-height 0.4s cubic-bezier(0.4, 0, 0.2, 1)" },
      question := some
        { q with
          clickHandlers := q.clickHandlers ++ [Handler.mk n i],
          keydownHandlers := q.keydownHandlers ++ [i] } }
  | _, _ => item

/-- `initializeFAQ()`. -/
def initializeFAQ (p : Page) : Page :=
  { p with faqItems := p.faqItems.mapIdx (wire p.faqItems.length) }

/-- The `.faq__item` built by `addFAQItem` when its template is taken as
written; `measured` is the height the layout engine will report for its
answer. -/
def newFaqItem (measured : Nat) : FaqItem :=
  { active := false,
    opacity := "0",
    transform := "translateY(20px)",
    question := some { clickHandlers := [], keydownHandlers := [], decor := plainDecor },
    answer := some { maxHeight := "", overflow := "", transition := "", scrollHeight := measured } }

/-- A bilingual element of the template of `addFAQItem`, showing the text of
the current language, when the two texts are plain text: they are the values
of `data-ar` and `data-en` and the text of the element as they stand. -/
def bilingual (currentLang ar en : String) : Element :=
  { attrs := [("data-ar", ar), ("data-en", en)],
    textContent := if currentLang = "ar" then ar else en }

/-- `addFAQItem(questionAr, questionEn, answerAr, answerEn)` on arguments that
are plain text, for which the template gives one question and one answer (on
any arguments: `addFAQItemMarkup`); `measured` is the height the layout engine
will report for the new answer. -/
def addFAQItem (questionAr questionEn answerAr answerEn : String) (measured : Nat)
    (p : Page) : Page :=
  let p :=
    if p.faqContainer then
      { p with
        faqItems := p.faqItems ++ [newFaqItem measured],
        elements := p.elements ++
          [bilingual p.currentLang questionAr questionEn,
           bilingual p.currentLang answerAr answerEn] }
    else p
  initializeFAQ p

/-- A page as served: no listener registered on any question yet and no
animation-frame callback pending. -/
def fresh (p : Page) : Bool :=
  p.frames.isEmpty && p.faqItems.all fun item =>
    match item.question with
    | none => true
    | some q => q.clickHandlers.isEmpty && q.keydownHandlers.isEmpty

/-- Whether item `i` exists and has both a question and an answer, so that
`initializeFAQ` registers listeners on it. -/
def wired (p : Page) (i : Nat) : Bool :=
  match p.faqItems[i]? with
  | none => false
  | some item => item.question.isSome && item.answer.isSome

/-- The number of `.faq__item` elements that carry the `active` class. -/
def activeCount (p : Page) : Nat :=
  p.faqItems.countP fun item => item.active

/-- The `active` flags of the items, in document order. -/
def activeFlags (p : Page) : List Bool :=
  p.faqItems.map fun item => item.active

/-- The pages reachable from page load: `initializeFAQ` has run on a fresh
page, followed by any sequence of clicks on questions, `addFAQItem` calls and
animation frames. -/
inductive Reachable : Page → Prop
  | load (p : Page) : fresh p = true → Reachable (initializeFAQ p)
  | click (i : Nat) {p : Page} : Reachable p → Reachable (click i p)
  | add (qAr qEn aAr aEn : String) (measured : Nat) {p : Page} :
      Reachable p → Reachable (addFAQItem qAr qEn aAr aEn measured p)
  | frame {p : Page} : Reachable p → Reachable (animationFrame p)

/-- The settled pages: those reachable from a page served with at most one
active item, and those reachable through a click, dispatched in full, on a
question that has listeners. -/
inductive Settled : Page → Prop
  | served (p : Page) :
      fresh p = true → activeCount p ≤ 1 → Settled (initializeFAQ p)
  | clicked (i : Nat) {p : Page} : Reachable p → wired p i = true → Settled (click i p)
  | click (i : Nat) {p : Page} : Settled p → Settled (click i p)
  | add (qAr qEn aAr aEn : String) (measured : Nat) {p : Page} :
      Settled p → Settled (addFAQItem qAr qEn aAr aEn measured p)
  | frame {p : Page} : Settled p → Settled (animationFrame p)

/-! ## Start-up sequence -/

/-- The writes of `initializeScrollAnimations()` on one observed `.faq__item`. -/
def hideForReveal (item : FaqItem) : FaqItem :=
  { item with opacity := "0", transform := "translateY(30px)" }

/-- `bindEvents()`: listeners are registered on the two toggles, which raises
when one is missing, and `initializeScrollAnimations()` hides every `.faq__item`
until it scrolls into view. -/
def bindEvents (p : Page) : Outcome :=
  match p.themeToggle with
  | none => .threw p
  | some _ =>
    match p.langToggle with
    | none => .threw p
    | some _ => .returned { p with faqItems := p.faqItems.map hideForReveal }

/-- `init()`.  The four initialisers after `initializeFAQ` (mobile menu, smooth
scroll, background animation, particle effects) touch nothing of the page
modelled here. -/
def init (p : Page) : Outcome :=
  match initializeTheme p with
  | .threw p => .threw p
  | .returned p =>
    match initializeLanguage p with
    | .threw p => .threw p
    | .returned p =>
      match bindEvents p with
      | .threw p => .threw p
      | .returned p => .returned (initializeFAQ p)

/-- `new App()`: the constructor sets the two fields and calls `init()`. -/
def construct (p : Page) : Outcome :=
  init { p with currentLang := "ar", currentTheme := "light" }

/-- An entry of the `additionalFAQs` table. -/
structure Faq where
  questionAr : String
  questionEn : String
  answerAr : String
  answerEn : String
deriving DecidableEq, Repr

/-- The `additionalFAQs` table. -/
def additionalFAQs : List Faq := [
  { questionAr := "إيه قصتكم كبداية؟",
    questionEn := "What's your origin story?",
    answerAr := "البداية كانت لما كنا طلاب في السنوات الأولى من كلية الطب، كنا دائماً بنحب نساعد زملائنا بطرق إبداعية مختلفة للمذكرة والاستذكار، كما بنوفر mind maps, flash cards, diagrams وغيرهم للدفعة بشكل مجاني تماماً لكن الموضوع كان مرهق لأن كل شيء كان يدوي. لما بدأ الai يبقى متاح بشكل أولى كانت فرصتنا أننا نستخدمه في تطوير أفكارنا، وهكذا ظهر the smart path بعد تلت سنوات خبرة من دراسة وتجربة الai في التعليم وغيره من الفروع.",
    answerEn := "The beginning was when we were students in the early years of medical school, we always loved to help our colleagues with different creative ways of studying and memorizing. We provided mind maps, flash cards, diagrams and others to the class completely free but it was exhausting because everything was manual. When AI became available, it was our opportunity to use it in developing our ideas, and thus the smart path appeared after three years of experience studying and experimenting with AI in education." },
  { questionAr := "إيه علاقتكم بالمناهج الرسمية للجامعة؟",
    questionEn := "What is your relationship with official university curricula?",
    answerAr := "شغلنا معتمد بشكل أساسي على المنهج الدراسي بدون أي اختلاف، لأننا بنغذي نماذج الai اللي بنستخدمها بكتاب الكلية الرسمي، مع إضافة بعض الصور والمصادر المساعدة إذا تطلب الأمر في حالة عدم توافرها في كتاب الكلية بشكل واضح.",
    answerEn := "Our work is mainly based on the academic curriculum without any difference, because we feed the AI models we use with the official college book, with the addition of some images and auxiliary sources if required in case they are not clearly available in the college book." },
  { questionAr := "لو أنا طالب في سنة أولى/أخيرة: هل أنتم مناسبين ليا؟",
    questionEn := "If I'm a first/final year student: are you suitable for me?",
    answerAr := "خدماتنا مناسبة لكل الطلاب من كل السنوات والفرق، بل مخصصة أيضاً لكل فرقة على حسب مدى استيعابها. مثال: شروحات السنة الأولى تتميز بتوفر اللغة العربية بشكل كبير بجانب الإنجليزية والشرح أكثر تبسيطاً.",
    answerEn := "Our services are suitable for all students from all years and grades, and are also customized for each grade according to their level of comprehension. Example: First year explanations are characterized by the availability of Arabic language significantly alongside English and the explanation is more simplified." },
  { questionAr := "إيه هي الخدمات الرئيسية اللي بتقدموها حاليًا؟",
    questionEn := "What are the main services you currently provide?",
    answerAr := "احنا بنقدم package لكل موديول من موديولات كلية طب الزقازيق حالياً، الpcakage تشمل على الآتي لكل درس: فيديو تعليمي مبسط للدرس + ملف صوتي بودكاست به نقاش عن الدرس + خريطة ذهنية للدرس بالانجليزية + خريطة ذهنية للدرس بالعربية + ملف نصي كدليل دراسي للدرس + ملف نصي بأهم الاسألو النظرية + ملف html عبارة عن اختبار به ٢٠ سؤال اختيار من متعدد عن الدرس",
    answerEn := "We provide a package for each module of Zagazig Medical College modules currently. The package includes for each lesson: simplified educational video + audio podcast file with discussion + mind map in English + mind map in Arabic + text file as study guide + text file with most important theoretical questions + html file as a test with 20 multiple choice questions about the lesson" },
  { questionAr := "هل الخدمة مجانية ولا مدفوعة؟",
    questionEn := "Is the service free or paid?",
    answerAr := "الخدمة مدفوعة بسعر بسيط جداً، وهناك خصومات للطلاب من غزة وعروض للأصحاب والمجموعات.",
    answerEn := "The service is paid at a very simple price, and there are discounts for students from Gaza and offers for friends and groups." } ]

/-- The timer callback of the `DOMContentLoaded` listener:
`additionalFAQs.forEach(faq => app.addFAQItem(...))`; `heights k` is the height
the layout engine will report for the answer of the `k`-th entry. -/
def addAdditionalFAQs (heights : Nat → Nat) (p : Page) : Page :=
  additionalFAQs.enum.foldl
    (fun page (entry : Nat × Faq) =>
      addFAQItem entry.2.questionAr entry.2.questionEn entry.2.answerAr entry.2.answerEn
        (heights entry.1) page)
    p

/-- The `addFAQItem` calls for a list of numbered entries, one after the other;
`heights k` is the height the layout engine will report for the answer of
entry `k`. -/
def addEntries (entries : List (Nat × Faq)) (heights : Nat → Nat) (p : Page) : Page :=
  entries.foldl
    (fun page (entry : Nat × Faq) =>
      addFAQItem entry.2.questionAr entry.2.questionEn entry.2.answerAr entry.2.answerEn
        (heights entry.1) page)
    p

/-! ## Observations and auxiliary notions -/

/-- The number of click listeners registered on the question of item `i`. -/
def listenerCount (p : Page) (i : Nat) : Nat :=
  match p.faqItems[i]? with
  | none => 0
  | some item =>
    match item.question with
    | none => 0
    | some q => q.clickHandlers.length

/-- What listener registration depends on and produces: per item, the click
listeners of its question and whether it has an answer. -/
def skeleton (p : Page) : List (Option (List Handler) × Bool) :=
  p.faqItems.map fun item => (item.question.map fun q => q.clickHandlers, item.answer.isSome)

/-- Net effect of one listener run on the item at index `j`, `wasActive` being
the `isActive` the listener read. -/
def clickEffect (h : Handler) (wasActive : Bool) (j : Nat) (it : FaqItem) : FaqItem :=
  if j = h.item then rippleQuestion (setMaxHeight "0px" (setActive (!wasActive) it))
  else if j < h.snapshot then closeOther it else it

/-- Every listener on item `i` has `i` as its own item. -/
abbrev OwnListeners (sk : List (Option (List Handler) × Bool)) : Prop :=
  ∀ (i : Nat) (hs : List Handler) (b : Bool), sk[i]? = some (some hs, b) → ∀ h ∈ hs, h.item = i

/-- On top of `OwnListeners`: the listener registered last on an item with an
answer captured the whole present list of items. -/
abbrev Wiring (sk : List (Option (List Handler) × Bool)) : Prop :=
  ∀ (i : Nat) (hs : List Handler) (b : Bool), sk[i]? = some (some hs, b) →
    (∀ h ∈ hs, h.item = i) ∧ (b = true → ∃ front, hs = front ++ [Handler.mk sk.length i])

/-- The calls `setLanguage(l)` for `l` in `langs`, one after the other, each on
the page the previous one left behind. -/
def setLanguages (langs : List String) (p : Page) : Page :=
  langs.foldl (fun page l => (setLanguage l page).page) p

/-- Every element matching `[data-ar][data-en]` shows its `data-<lang>` text. -/
def ShowsLanguage (lang : String) (p : Page) : Prop :=
  ∀ e ∈ p.elements, e.translatable = true → e.getAttribute ("data-" ++ lang) = some e.textContent

instance decidableShowsLanguage (lang : String) (p : Page) : Decidable (ShowsLanguage lang p) := by
  unfold ShowsLanguage
  infer_instance

/-- What the theme shows and stores: the in-memory value, the three theme
attributes, the header background, the toggle icon, and the stored value. -/
structure ThemePresentation where
  currentTheme : String
  colorScheme : Option String
  bodyTheme : Option String
  header : Option Header
  icon : Option (Option Icon)
  storedTheme : Option String
deriving DecidableEq, Repr

/-- The theme presentation of a page. -/
def themePresentation (p : Page) : ThemePresentation :=
  { currentTheme := p.currentTheme,
    colorScheme := p.colorScheme,
    bodyTheme := p.bodyTheme,
    header := p.header,
    icon := p.themeToggle.map fun t => t.icon,
    storedTheme := p.storage.theme }

/-- The page after `n` calls of `toggleTheme()`, each on the page the previous
one left behind. -/
def toggleThemes (n : Nat) (p : Page) : Page :=
  (fun page => (toggleTheme page).page)^[n] p

/-- The page presents theme `t`: setting `t` again changes nothing shown or
stored. -/
def Presents (t : String) (p : Page) : Prop :=
  themePresentation (setTheme t p).page = themePresentation p

/-- The page with the ripple decoration of the two toggle buttons cleared. -/
def sansDecor (p : Page) : Page :=
  { p with
    themeToggle := p.themeToggle.map fun (t : ThemeToggle) => { t with decor := plainDecor },
    langToggle := p.langToggle.map fun (t : LangToggle) => { t with decor := plainDecor } }

/-- Whether item `i` exists and carries the `active` class. -/
def itemActive (p : Page) (i : Nat) : Bool :=
  match p.faqItems[i]? with
  | none => false
  | some item => item.active

/-- The inline `max-height` of the answer of item `i`. -/
def maxHeightOf (p : Page) (i : Nat) : Option String :=
  match p.faqItems[i]? with
  | none => none
  | some item => item.answer.map fun a => a.maxHeight

/-- The keydown listeners of every question, item by item. -/
def keyListeners (p : Page) : List (Option (List Nat)) :=
  p.faqItems.map fun item => item.question.map fun q => q.keydownHandlers

/-- Every question carries as many keydown listeners as click listeners, each
holding the question it sits on. -/
def Paired (p : Page) : Prop :=
  ∀ (i : Nat) (item : FaqItem) (q : Question), p.faqItems[i]? = some item →
    item.question = some q → q.keydownHandlers = List.replicate q.clickHandlers.length i

/-- The flags of a group in which only item `i` can be active, and is when `b`
holds. -/
def flagsOnly (n i : Nat) (b : Bool) : List Bool :=
  (List.range n).map fun j => decide (j = i) && b

/-- The first part of a run of the click listener: the inner `forEach`, which
closes every captured item other than the listener's own. -/
def closeOthers (h : Handler) (p : Page) : Page :=
  { p with faqItems := p.faqItems.mapIdx fun j (otherItem : FaqItem) =>
      if j < h.snapshot ∧ j ≠ h.item then closeOther otherItem else otherItem }

/-- The opening branch of the click listener up to the measurement: the class
is added and `max-height` is `none`. -/
def beginOpening (i : Nat) (p : Page) : Page :=
  { p with faqItems := p.faqItems.modify (fun it => setMaxHeight "none" (setActive true it)) i }

/-- The page with a store whose `setItem` succeeds, all else equal. -/
def withWorkingStore (p : Page) : Page :=
  { p with storage := { p.storage with writable := true } }

/-- A call of one of the four preference operations. -/
inductive PrefCall where
  | setTheme (theme : String)
  | setLanguage (lang : String)
  | toggleTheme
  | toggleLanguage
deriving DecidableEq, Repr

/-- The call carried out on a page. -/
def PrefCall.run : PrefCall → Page → Outcome
  | .setTheme theme, p => App.setTheme theme p
  | .setLanguage lang, p => App.setLanguage lang p
  | .toggleTheme, p => App.toggleTheme p
  | .toggleLanguage, p => App.toggleLanguage p

/-- The calls carried out one after the other, each on the page the previous
one left behind. -/
def runCalls (calls : List PrefCall) (p : Page) : Page :=
  calls.foldl (fun page c => (c.run page).page) p

/-- The stored theme, the in-memory theme and the root `data-color-scheme`
agree, and so do the stored language, the in-memory language and the document
language. -/
def Consistent (p : Page) : Prop :=
  p.storage.theme = some p.currentTheme ∧ p.colorScheme = some p.currentTheme ∧
    p.storage.language = some p.currentLang ∧ p.lang = p.currentLang

/-- Both toggles exist, the theme toggle has its icon, and the store accepts
writes. -/
def ready (p : Page) : Bool :=
  (match p.themeToggle with
    | none => false
    | some t => t.icon.isSome) && p.langToggle.isSome && p.storage.writable

/-! ## The markup of a new FAQ item

`addFAQItem` builds the children of the new item by assigning a string to
`innerHTML`, which runs the HTML fragment parser of the platform on it.  The
parser is modelled after the HTML standard (tokenization, and tree construction
in the "in body" insertion mode with a `div` as context element) on a subset of
its input; `none` stands for input outside that subset, never for a result. -/

/-- The string `addFAQItem` assigns to `faqItem.innerHTML`: its template
literal with the six substitutions made. -/
def faqItemMarkup (currentLang questionAr questionEn answerAr answerEn : String) : String :=
  "\n                <button class=\"faq__question\">\n                    <span data-ar=\"" ++
    questionAr ++ "\" data-en=\"" ++ questionEn ++ "\">" ++
    (if currentLang = "ar" then questionAr else questionEn) ++
    "</span>\n                    <i class=\"fas fa-chevron-down\"></i>\n                </button>\n                <div class=\"faq__answer\">\n                    <p data-ar=\"" ++
    answerAr ++ "\" data-en=\"" ++ answerEn ++ "\">" ++
    (if currentLang = "ar" then answerAr else answerEn) ++
    "</p>\n                </div>\n            "

/-- A token of the HTML tokenizer.  Character tokens are kept in runs: one run,
empty or not, is emitted in front of every tag and at the end of the input. -/
inductive Token where
  | text (run : List Char)
  | startTag (name : String) (attrs : List (String × String))
  | endTag (name : String)
deriving DecidableEq, Repr

/-- The states of the HTML tokenizer that the model covers. -/
inductive TokenizerState where
  | data
  | tagOpen
  | endTagOpen
  | tagName
  | beforeAttributeName
  | attributeName
  | afterAttributeName
  | beforeAttributeValue
  | attributeValueDoubleQuoted
  | attributeValueSingleQuoted
  | attributeValueUnquoted
  | afterAttributeValueQuoted
  | selfClosingStartTag
deriving DecidableEq, Repr

/-- The tokenizer: its state, the tokens emitted, the pending run of
characters, and the tag token under construction (`closing` for an end tag)
with the attribute being read, if any. -/
structure Tokenizer where
  state : TokenizerState
  tokens : List Token
  text : List Char
  closing : Bool
  name : List Char
  attrs : List (String × String)
  reading : Bool
  attrName : List Char
  attrValue : List Char
deriving DecidableEq, Repr

/-- The tokenizer before the first character: the data state. -/
def Tokenizer.start : Tokenizer :=
  { state := .data, tokens := [], text := [], closing := false, name := [], attrs := [],
    reading := false, attrName := [], attrValue := [] }

/-- Tab, line feed, form feed and space: the characters that separate the
parts of a tag. -/
def isTagSpace (c : Char) : Bool :=
  c = '\t' || c = '\n' || c = Char.ofNat 12 || c = ' '

/-- The attribute being read, if any, is complete: it joins the tag token
unless the token already has an attribute of that name. -/
def Tokenizer.closeAttribute (t : Tokenizer) : Tokenizer :=
  if t.reading then
    { t with
      reading := false, attrName := [], attrValue := [],
      attrs :=
        if (t.attrs.lookup (String.mk t.attrName)).isSome then t.attrs
        else t.attrs ++ [(String.mk t.attrName, String.mk t.attrValue)] }
  else t

/-- A new attribute starts in the tag token, its name beginning with `c`. -/
def Tokenizer.startAttribute (t : Tokenizer) (c : Char) : Tokenizer :=
  { t.closeAttribute with
    state := .attributeName, reading := true, attrName := [c.toLower], attrValue := [] }

/-- The tag token is emitted, after the pending run of characters, and the
tokenizer is back in the data state.  The attributes of an end tag are
dropped, and so is the self-closing flag, which no element of the model
acknowledges. -/
def Tokenizer.emitTag (t : Tokenizer) : Tokenizer :=
  let t := t.closeAttribute
  let tag :=
    if t.closing then Token.endTag (String.mk t.name)
    else Token.startTag (String.mk t.name) t.attrs
  { t with
    state := .data, tokens := t.tokens ++ [Token.text t.text, tag], text := [],
    closing := false, name := [], attrs := [] }

/-- The data state on `c`. -/
def Tokenizer.dataState (t : Tokenizer) (c : Char) : Option Tokenizer :=
  if c = '&' then none
  else if c = '<' then some { t with state := .tagOpen }
  else some { t with state := .data, text := t.text ++ [c] }

/-- The before-attribute-name state on `c`. -/
def Tokenizer.beforeAttributeNameState (t : Tokenizer) (c : Char) : Option Tokenizer :=
  if isTagSpace c then some { t with state := .beforeAttributeName }
  else if c = '/' then some { t with state := .selfClosingStartTag }
  else if c = '>' then some t.emitTag
  else some (t.startAttribute c)

/-- One character is consumed.  `none` is a construct outside the model: a
character reference (`&`), a NUL, a carriage return (the input stream is
normalised before it is tokenized), a comment or declaration, an end tag that
does not start with a letter. -/
def Tokenizer.step (t : Tokenizer) (c : Char) : Option Tokenizer :=
  if c = Char.ofNat 0 ∨ c = '\r' then none
  else
    match t.state with
    | .data => t.dataState c
    | .tagOpen =>
      if c = '/' then some { t with state := .endTagOpen }
      else if c.isAlpha then
        some { t with state := .tagName, closing := false, name := [c.toLower] }
      else if c = '!' ∨ c = '?' then none
      else Tokenizer.dataState { t with text := t.text ++ ['<'] } c
    | .endTagOpen =>
      if c.isAlpha then some { t with state := .tagName, closing := true, name := [c.toLower] }
      else none
    | .tagName =>
      if isTagSpace c then some { t with state := .beforeAttributeName }
      else if c = '/' then some { t with state := .selfClosingStartTag }
      else if c = '>' then some t.emitTag
      else some { t with name := t.name ++ [c.toLower] }
    | .beforeAttributeName => t.beforeAttributeNameState c
    | .attributeName =>
      if isTagSpace c then some { t with state := .afterAttributeName }
      else if c = '/' then some { t with state := .selfClosingStartTag }
      else if c = '>' then some t.emitTag
      else if c = '=' then some { t with state := .beforeAttributeValue }
      else some { t with attrName := t.attrName ++ [c.toLower] }
    | .afterAttributeName =>
      if isTagSpace c then some t
      else if c = '/' then some { t with state := .selfClosingStartTag }
      else if c = '=' then some { t with state := .beforeAttributeValue }
      else if c = '>' then some t.emitTag
      else some (t.startAttribute c)
    | .beforeAttributeValue =>
      if isTagSpace c then some t
      else if c = '"' then some { t with state := .attributeValueDoubleQuoted }
      else if c = '\'' then some { t with state := .attributeValueSingleQuoted }
      else if c = '>' then some t.emitTag
      else if c = '&' then none
      else some { t with state := .attributeValueUnquoted, attrValue := t.attrValue ++ [c] }
    | .attributeValueDoubleQuoted =>
      if c = '"' then some { t with state := .afterAttributeValueQuoted }
      else if c = '&' then none
      else some { t with attrValue := t.attrValue ++ [c] }
    | .attributeValueSingleQuoted =>
      if c = '\'' then some { t with state := .afterAttributeValueQuoted }
      else if c = '&' then none
      else some { t with attrValue := t.attrValue ++ [c] }
    | .attributeValueUnquoted =>
      if isTagSpace c then some { t with state := .beforeAttributeName }
      else if c = '&' then none
      else if c = '>' then some t.emitTag
      else some { t with attrValue := t.attrValue ++ [c] }
    | .afterAttributeValueQuoted => t.beforeAttributeNameState c
    | .selfClosingStartTag => t.beforeAttributeNameState c

/-- The characters are consumed one after the other. -/
def Tokenizer.run (t : Tokenizer) : List Char → Option Tokenizer
  | [] => some t
  | c :: rest =>
    match t.step c with
    | none => none
    | some t => t.run rest

/-- The tokens of a string.  An input that ends inside a tag is outside the
model. -/
def tokenize (s : String) : Option (List Token) :=
  match Tokenizer.start.run s.data with
  | none => none
  | some t =>
    match t.state with
    | .data => some (t.tokens ++ [Token.text t.text])
    | _ => none

/-- The elements the tree builder of the model covers. -/
def supportedTags : List String :=
  ["button", "span", "i", "div", "p"]

/-- An attribute outside the model: an `id` can make the element the one
`getElementById` returns, a `style` sets the inline style the page model holds,
and an event handler attribute (`on...`) holds a script. -/
def unsupportedAttribute (name : String) : Bool :=
  name = "id" || name = "style" || name.data.take 2 = ['o', 'n']

/-- The class names the program selects elements by. -/
def selectedClasses : List String :=
  ["faq__item", "faq__question", "faq__answer"]

/-- The tokens of the `class` attribute (a carriage return never reaches an
attribute value here). -/
def classList (attrs : List (String × String)) : List String :=
  match attrs.lookup "class" with
  | none => []
  | some value => (value.data.splitOnP isTagSpace).map String.mk

/-- Whether the element carries the class `name`. -/
def hasClass (attrs : List (String × String)) (name : String) : Bool :=
  (classList attrs).contains name

/-- Whether a class of the element differs from a selected class name in
letter case only: such an element matches the selector in a quirks-mode
document and not otherwise. -/
def ambiguousClass (attrs : List (String × String)) : Bool :=
  (classList attrs).any fun token =>
    !selectedClasses.contains token && selectedClasses.contains (asciiLower token)

/-- Whether an element with these attributes matches `[data-ar][data-en]`. -/
def translatableAttrs (attrs : List (String × String)) : Bool :=
  Element.translatable { attrs := attrs, textContent := "" }

/-- An element on the stack of open elements, with the text read inside it so
far. -/
structure OpenElement where
  name : String
  attrs : List (String × String)
  text : List Char
deriving DecidableEq, Repr

/-- The tree builder on the children of the new `.faq__item`: the stack of open
elements (innermost first), and what the program will find in the subtree: the
`.faq__item` elements in document order, whether there is a `.faq__question`
and a `.faq__answer`, and the elements matching `[data-ar][data-en]`. -/
structure Fragment where
  stack : List OpenElement
  items : List FaqItem
  question : Bool
  answer : Bool
  elements : List Element
deriving DecidableEq, Repr

/-- The tree builder before the first token. -/
def Fragment.start : Fragment :=
  { stack := [], items := [], question := false, answer := false, elements := [] }

/-- The tag names on the stack of open elements, innermost first. -/
def Fragment.names (f : Fragment) : List String :=
  f.stack.map fun (e : OpenElement) => e.name

/-- The `n` innermost open elements are popped; one that matches
`[data-ar][data-en]` is complete with its text. -/
def Fragment.pop (f : Fragment) (n : Nat) : Fragment :=
  { f with
    stack := f.stack.drop n,
    elements := f.elements ++
      (((f.stack.take n).reverse.filter fun (e : OpenElement) => translatableAttrs e.attrs).map
        fun (e : OpenElement) => Element.mk e.attrs (String.mk e.text)) }

/-- Elements are popped until a `name` element has been popped, one being
open.  An `i` popped on the way would stay in the list of active formatting
elements and be reconstructed later: outside the model. -/
def Fragment.popUntil (f : Fragment) (name : String) : Option Fragment :=
  let above := f.names.takeWhile fun n => n != name
  if above.contains "i" then none else some (f.pop (above.length + 1))

/-- Whether the stack of open elements has a `p` element in button scope. -/
def Fragment.hasParagraphInButtonScope (f : Fragment) : Bool :=
  (f.names.takeWhile fun n => n != "button").contains "p"

/-- A `.faq__item` found inside the new item: no inline style, and neither a
question nor an answer below it. -/
def nestedItem (attrs : List (String × String)) : FaqItem :=
  { active := hasClass attrs "active", opacity := "", transform := "",
    question := none, answer := none }

/-- An element is inserted at the current node.  `none` is a subtree the page
model cannot hold: an element the program selects inside an element matching
`[data-ar][data-en]`, whose content `setLanguage` replaces; a question or an
answer that is itself an item or translatable, or lies inside a nested item,
which would share it with the new item; an element that is both a question and
an answer. -/
def Fragment.insert (f : Fragment) (name : String) (attrs : List (String × String)) :
    Option Fragment :=
  let item := hasClass attrs "faq__item"
  let question := hasClass attrs "faq__question"
  let answer := hasClass attrs "faq__answer"
  let translatable := translatableAttrs attrs
  if (item || question || answer || translatable) &&
      f.stack.any (fun (e : OpenElement) => translatableAttrs e.attrs) then none
  else if (question || answer) &&
      (item || translatable || f.stack.any (fun (e : OpenElement) => hasClass e.attrs "faq__item"))
  then none
  else if question && answer then none
  else
    some
      { f with
        stack := OpenElement.mk name attrs [] :: f.stack,
        items := if item then f.items ++ [nestedItem attrs] else f.items,
        question := f.question || question,
        answer := f.answer || answer }

/-- A start tag.  A `button` closes an open `button` first, a `div` or a `p`
closes a `p` that is open in button scope.  An element or attribute the model
does not cover gives `none`. -/
def Fragment.startTag (f : Fragment) (name : String) (attrs : List (String × String)) :
    Option Fragment :=
  if !supportedTags.contains name || attrs.any (fun a => unsupportedAttribute a.1) ||
      ambiguousClass attrs then none
  else
    let closed :=
      if name = "button" && f.names.contains "button" then f.popUntil "button"
      else if (name = "div" || name = "p") && f.hasParagraphInButtonScope then f.popUntil "p"
      else some f
    match closed with
    | none => none
    | some f => f.insert name attrs

/-- An end tag.  `</div>` and `</button>` pop up to the innermost such element
and are ignored when none is open; `</p>` pops up to the `p` in button scope,
and otherwise leaves an empty `p` behind, which the program never selects;
`</span>` and `</i>` pop the current node when it is such an element and are
ignored when the innermost element that is neither a `span` nor an `i` comes
first.  `none` is an end tag that needs the adoption agency algorithm or pops
an `i` on the way, and the end tag of an element the model does not cover. -/
def Fragment.endTag (f : Fragment) (name : String) : Option Fragment :=
  if name = "div" || name = "button" then
    if f.names.contains name then f.popUntil name else some f
  else if name = "p" then
    if f.hasParagraphInButtonScope then f.popUntil "p" else some f
  else if name = "span" then
    if f.names.head? = some "span" then some (f.pop 1)
    else if (f.names.dropWhile fun n => n == "i").head? = some "span" then none
    else some f
  else if name = "i" then
    if f.names.head? = some "i" then some (f.pop 1)
    else if f.names.contains "i" then none
    else some f
  else none

/-- A run of characters is inserted at the current node: it is text of every
open element. -/
def Fragment.characters (f : Fragment) (run : List Char) : Fragment :=
  { f with stack := f.stack.map fun (e : OpenElement) => { e with text := e.text ++ run } }

/-- One token is processed. -/
def Fragment.step (f : Fragment) : Token → Option Fragment
  | .text run => some (f.characters run)
  | .startTag name attrs => f.startTag name attrs
  | .endTag name => f.endTag name

/-- The tokens are processed one after the other. -/
def Fragment.run (f : Fragment) : List Token → Option Fragment
  | [] => some f
  | token :: rest =>
    match f.step token with
    | none => none
    | some f => f.run rest

/-- The HTML fragment parsing algorithm as the setter of `innerHTML` runs it on
the new item; at the end of the input the elements still open are complete. -/
def parseFragment (markup : String) : Option Fragment :=
  match tokenize markup with
  | none => none
  | some tokens =>
    match Fragment.start.run tokens with
    | none => none
    | some f => some (f.pop f.stack.length)

/-- The `.faq__item` created by `addFAQItem` once its `innerHTML` is set:
`querySelector` finds a question, and an answer, when the subtree has one. -/
def createdItem (f : Fragment) (measured : Nat) : FaqItem :=
  { active := false,
    opacity := "0",
    transform := "translateY(20px)",
    question :=
      if f.question then some { clickHandlers := [], keydownHandlers := [], decor := plainDecor }
      else none,
    answer :=
      if f.answer then
        some { maxHeight := "", overflow := "", transition := "", scrollHeight := measured }
      else none }

/-- `addFAQItem(questionAr, questionEn, answerAr, answerEn)` with the string
assigned to `innerHTML` parsed; `measured` is the height the layout engine will
report for the new answer.  `none` is markup outside the model. -/
def addFAQItemMarkup (questionAr questionEn answerAr answerEn : String) (measured : Nat)
    (p : Page) : Option Page :=
  if p.faqContainer then
    match parseFragment (faqItemMarkup p.currentLang questionAr questionEn answerAr answerEn) with
    | none => none
    | some f =>
      some (initializeFAQ
        { p with
          faqItems := p.faqItems ++ createdItem f measured :: f.items,
          elements := p.elements ++ f.elements })
  else some (initializeFAQ p)

/-- A string that is text wherever the template puts it: no `<`, `"` or `&`,
and neither a carriage return nor a NUL. -/
def plainText (s : String) : Bool :=
  s.data.all fun c => !(c = '<' || c = '"' || c = '&' || c = '\r' || c = Char.ofNat 0)

/-- The characters a plain-text string is made of. -/
abbrev PlainChars (l : List Char) : Prop :=
  ∀ c ∈ l, c ≠ '<' ∧ c ≠ '"' ∧ c ≠ '&' ∧ c ≠ '\r' ∧ c ≠ Char.ofNat 0

/-- The template up to the first substitution. -/
def markupHead : List Char :=
  "\n                <button class=\"faq__question\">\n                    <span data-ar=\"".data

/-- The template between the two attribute values of an element. -/
def markupBetween : List Char :=
  "\" data-en=\"".data

/-- The template between the second attribute value of an element and its
text. -/
def markupClose : List Char :=
  "\">".data

/-- The template between the text of the question and the first attribute
value of the answer. -/
def markupMiddle : List Char :=
  "</span>\n                    <i class=\"fas fa-chevron-down\"></i>\n                </button>\n                <div class=\"faq__answer\">\n                    <p data-ar=\"".data

/-- The template after the text of the answer. -/
def markupTail : List Char :=
  "</p>\n                </div>\n            ".data

/-- The timer callback of the `DOMContentLoaded` listener with every string
assigned to `innerHTML` parsed. -/
def addAdditionalFAQsMarkup (heights : Nat → Nat) (p : Page) : Option Page :=
  additionalFAQs.enum.foldlM
    (fun page (entry : Nat × Faq) =>
      addFAQItemMarkup entry.2.questionAr entry.2.questionEn entry.2.answerAr entry.2.answerEn
        (heights entry.1) page)
    p

/-- An entry whose four texts are plain text. -/
def Faq.plain (faq : Faq) : Bool :=
  plainText faq.questionAr && plainText faq.questionEn &&
    plainText faq.answerAr && plainText faq.answerEn

/-! ## Sample pages -/

/-- A closed FAQ item with a question and an answer, as served. -/
def sampleItem (height : Nat) : FaqItem :=
  { active := false, opacity := "", transform := "",
    question := some { clickHandlers := [], keydownHandlers := [], decor := plainDecor },
    answer := some { maxHeight := "", overflow := "", transition := "", scrollHeight := height } }

/-- The icon of the sample theme toggle. -/
def sampleIcon : Icon :=
  { className := "fas fa-moon", color := "" }

/-- The theme toggle of the sample page. -/
def sampleThemeToggle : ThemeToggle :=
  { icon := some sampleIcon, decor := plainDecor }

/-- The language toggle of the sample page. -/
def sampleLangToggle : LangToggle :=
  { textContent := "EN", decor := plainDecor }

/-- A page as served: header and both toggles present, one bilingual heading,
an empty working store, and three closed FAQ items inside the container. -/
def samplePage : Page :=
  { currentLang := "ar", currentTheme := "light", lang := "ar", dir := "rtl",
    colorScheme := none, bodyTheme := none,
    header := some { dataTheme := none, backgroundColor := "" },
    themeToggle := some sampleThemeToggle,
    langToggle := some sampleLangToggle,
    title := "The Smart Path",
    elements := [{ attrs := [("data-ar", "الأسئلة الشائعة"), ("data-en", "FAQs")],
                   textContent := "الأسئلة الشائعة" }],
    storage := { theme := none, language := none, writable := true },
    events := [],
    faqContainer := true,
    faqItems := [sampleItem 40, sampleItem 60, sampleItem 80],
    frames := [] }

/-- The sample page after `addFAQItem('مرحبا', '', 'جواب', 'Answer')`: the
question of the new item has an empty English text. -/
def emptyPayloadPage : Page :=
  addFAQItem "مرحبا" "" "جواب" "Answer" 50 samplePage

/-- The sample page with a store holding values outside the two enumerations. -/
def strangeStorePage : Page :=
  { samplePage with storage := { theme := some "blue", language := some "fr", writable := true } }

/-- The sample page with the dark theme kept in its store. -/
def darkStorePage : Page :=
  { samplePage with storage := { theme := some "dark", language := none, writable := true } }

/-- The sample page with a store whose `setItem` raises. -/
def failingStorePage : Page :=
  { samplePage with storage := { theme := none, language := none, writable := false } }

/-- The sample page after page load, one click on item 0 and the animation
frame that click scheduled: item 0 is open at its measured height. -/
def openedPage : Page :=
  animationFrame (click 0 (initializeFAQ samplePage))

/-- The sample page after the start-up sequence of the program. -/
def startedPage : Page :=
  addAdditionalFAQs (fun _ => 120) (initializeFAQ samplePage)

/-- Two preference calls: `toggleTheme()`, then `setLanguage('en')`. -/
def sampleCalls : List PrefCall :=
  [PrefCall.toggleTheme, PrefCall.setLanguage "en"]

/-- The sample page after page load, item 1 opened at 60px and closed again,
and a new layout in which its answer measures 90px. -/
def relaidPage : Page :=
  relayout 1 90 (click 1 (animationFrame (click 1 (initializeFAQ samplePage))))

/-- The question of item 1 of `relaidPage`. -/
def relaidQuestion : Question :=
  { clickHandlers := [Handler.mk 3 1], keydownHandlers := [1],
    decor := { position := "relative", overflow := "hidden", ripples := 2 } }

/-- The answer of item 1 of `relaidPage`. -/
def relaidAnswer : Answer :=
  { maxHeight := "0px", overflow := "hidden",
    transition := "max-height 0.4s cubic-bezier(0.4, 0, 0.2, 1)", scrollHeight := 90 }

/-- Item 1 of `relaidPage`. -/
def relaidItem : FaqItem :=
  { active := false, opacity := "", transform := "",
    question := some relaidQuestion, answer := some relaidAnswer }

/-! ## Lemmas on the accordion -/

/-- A later write of `max-height` overrides an earlier one. -/
theorem setMaxHeight_setMaxHeight (v w : String) (item : FaqItem) :
    setMaxHeight w (setMaxHeight v item) = setMaxHeight w item := by
  cases item with
  | mk a o t q ans => cases ans <;> simp [setMaxHeight]

/-- One listener run, item by item: its own item is toggled, every other captured
item is closed, the rest is untouched. -/
theorem clickHandler_getElem? (h : Handler) (p : Page) (item : FaqItem) (q : Question)
    (a : Answer) (hitem : p.faqItems[h.item]? = some item) (hq : item.question = some q)
    (ha : item.answer = some a) (j : Nat) :
    (clickHandler h p).faqItems[j]? = (p.faqItems[j]?).map (clickEffect h item.active j) := by
  simp only [clickHandler, hitem, hq, ha]
  cases hact : item.active
  · simp only [List.getElem?_modify, List.getElem?_mapIdx, Bool.false_eq_true, if_false]
    cases p.faqItems[j]? with
    | none => simp
    | some it =>
      by_cases hj : j = h.item
      · subst hj; simp [clickEffect, setMaxHeight_setMaxHeight]
      · simp [clickEffect, hj, Ne.symm hj]
  · simp only [List.getElem?_modify, List.getElem?_mapIdx, if_true]
    cases p.faqItems[j]? with
    | none => simp
    | some it =>
      by_cases hj : j = h.item
      · subst hj; simp [clickEffect]
      · simp [clickEffect, hj, Ne.symm hj]

/-- A listener whose item lacks a question or an answer does nothing. -/
theorem clickHandler_unwired (h : Handler) (p : Page)
    (hw : wired p h.item = false) : clickHandler h p = p := by
  unfold wired at hw
  unfold clickHandler
  cases hitem : p.faqItems[h.item]? with
  | none => rfl
  | some item =>
    rw [hitem] at hw
    cases hq : item.question <;> cases ha : item.answer <;> simp_all

/-- A listener run neither registers listeners nor adds or removes an answer. -/
theorem clickEffect_skeleton (h : Handler) (b : Bool) (j : Nat) (it : FaqItem) :
    ((clickEffect h b j it).question.map fun q => q.clickHandlers) =
        (it.question.map fun q => q.clickHandlers) ∧
      (clickEffect h b j it).answer.isSome = it.answer.isSome := by
  cases it with
  | mk a o t q ans =>
    cases q <;> cases ans <;>
      simp [clickEffect, rippleQuestion, setMaxHeight, setActive, closeOther] <;>
      (split_ifs <;> simp)

/-- Being wired is read off the skeleton. -/
theorem wired_iff_skeleton (p : Page) (i : Nat) :
    wired p i = true ↔ ∃ hs, (skeleton p)[i]? = some (some hs, true) := by
  unfold wired skeleton
  rw [List.getElem?_map]
  cases p.faqItems[i]? with
  | none => simp
  | some item =>
    cases hq : item.question <;> cases ha : item.answer <;> simp [hq, ha]

/-- One listener run leaves the skeleton as it was. -/
theorem clickHandler_skeleton (h : Handler) (p : Page) :
    skeleton (clickHandler h p) = skeleton p := by
  cases hw : wired p h.item
  · rw [clickHandler_unwired h p hw]
  · unfold wired at hw
    cases hitem : p.faqItems[h.item]? with
    | none => simp [hitem] at hw
    | some item =>
      rw [hitem] at hw
      cases hq : item.question with
      | none => simp [hq] at hw
      | some q =>
        cases ha : item.answer with
        | none => simp [ha] at hw
        | some a =>
          apply List.ext_getElem?
          intro j
          unfold skeleton
          rw [List.getElem?_map, List.getElem?_map, clickHandler_getElem? h p item q a hitem hq ha j]
          cases p.faqItems[j]? with
          | none => rfl
          | some it =>
            simp only [Option.map_some']
            have := clickEffect_skeleton h item.active j it
            rw [this.1, this.2]

/-- Any number of listener runs leave the skeleton as it was. -/
theorem foldl_clickHandler_skeleton (hs : List Handler) (p : Page) :
    skeleton (hs.foldl (fun page h => clickHandler h page) p) = skeleton p := by
  induction hs generalizing p with
  | nil => rfl
  | cons h t ih => rw [List.foldl_cons, ih, clickHandler_skeleton]

/-- A click leaves the skeleton as it was. -/
theorem click_skeleton (i : Nat) (p : Page) : skeleton (click i p) = skeleton p := by
  unfold click
  split
  · rfl
  · split
    · rfl
    · exact foldl_clickHandler_skeleton _ p

/-- An animation frame leaves the skeleton as it was. -/
theorem animationFrame_skeleton (p : Page) : skeleton (animationFrame p) = skeleton p := by
  unfold animationFrame
  split
  · rfl
  · rename_i f rest _
    apply List.ext_getElem?
    intro j
    simp only [skeleton, List.getElem?_map, List.getElem?_modify]
    cases p.faqItems[j]? with
    | none => rfl
    | some it =>
      cases it with
      | mk a o t q ans =>
        cases ans <;> simp [setMaxHeight]
        split_ifs <;> simp

/-- The skeleton has one entry per item. -/
theorem skeleton_length (p : Page) : (skeleton p).length = p.faqItems.length := by
  simp [skeleton]

/-- `Wiring` contains `OwnListeners`. -/
theorem Wiring.own {sk : List (Option (List Handler) × Bool)} (w : Wiring sk) :
    OwnListeners sk :=
  fun i hs b h => (w i hs b h).1

/-- What `initializeFAQ` does to the skeleton of one item. -/
theorem wire_skeleton (n i : Nat) (item : FaqItem) :
    ((wire n i item).question.map fun q => q.clickHandlers) =
        (if item.answer.isSome then
          item.question.map fun q => q.clickHandlers ++ [Handler.mk n i]
         else item.question.map fun q => q.clickHandlers) ∧
      (wire n i item).answer.isSome = item.answer.isSome := by
  cases item with
  | mk a o t q ans => cases q <;> cases ans <;> simp [wire]

/-- `initializeFAQ` keeps the number of items. -/
theorem initializeFAQ_length (p : Page) :
    (initializeFAQ p).faqItems.length = p.faqItems.length := by
  simp [initializeFAQ]

/-- After `initializeFAQ` the last listener of every item with an answer captured
all items. -/
theorem initializeFAQ_wiring (p : Page) (own : OwnListeners (skeleton p)) :
    Wiring (skeleton (initializeFAQ p)) := by
  intro i hs b hi
  rw [skeleton_length, initializeFAQ_length]
  simp only [skeleton, initializeFAQ, List.getElem?_map, List.getElem?_mapIdx] at hi
  cases hitem : p.faqItems[i]? with
  | none => simp [hitem] at hi
  | some item =>
    simp only [hitem, Option.map_some', Option.some.injEq, Prod.mk.injEq] at hi
    obtain ⟨hq, hb⟩ := hi
    rw [(wire_skeleton _ i item).1] at hq
    rw [(wire_skeleton _ i item).2] at hb
    cases hqi : item.question with
    | none => simp [hqi] at hq
    | some q =>
      have hown := own i q.clickHandlers item.answer.isSome
        (by simp [skeleton, List.getElem?_map, hitem, hqi])
      cases ha : item.answer.isSome
      · simp only [ha, hqi, Bool.false_eq_true, if_false, Option.map_some',
          Option.some.injEq] at hq
        subst hq
        refine ⟨hown, ?_⟩
        intro hb2
        rw [ha] at hb
        rw [← hb] at hb2
        exact absurd hb2 (by simp)
      · simp only [ha, hqi, if_true, Option.map_some', Option.some.injEq] at hq
        subst hq
        refine ⟨?_, fun _ => ⟨q.clickHandlers, rfl⟩⟩
        intro h hh
        rcases List.mem_append.1 hh with h1 | h1
        · exact hown h h1
        · simp at h1; subst h1; rfl

/-- A page without listeners has `OwnListeners`. -/
theorem fresh_own (p : Page) (hf : fresh p = true) : OwnListeners (skeleton p) := by
  intro i hs b hi h hh
  simp only [fresh, Bool.and_eq_true, List.all_eq_true] at hf
  simp only [skeleton, List.getElem?_map] at hi
  cases hitem : p.faqItems[i]? with
  | none => simp [hitem] at hi
  | some item =>
    simp only [hitem, Option.map_some', Option.some.injEq, Prod.mk.injEq] at hi
    have hmem : item ∈ p.faqItems := List.getElem?_mem hitem
    have := hf.2 item hmem
    cases hq : item.question with
    | none => simp [hq] at hi
    | some q =>
      simp only [hq, Option.map_some', Option.some.injEq] at hi
      simp only [hq, Bool.and_eq_true, List.isEmpty_iff] at this
      rw [← hi.1, this.1] at hh
      simp at hh

/-- `addFAQItem` re-establishes `Wiring`. -/
theorem addFAQItem_wiring (qAr qEn aAr aEn : String) (measured : Nat) (p : Page)
    (own : OwnListeners (skeleton p)) :
    Wiring (skeleton (addFAQItem qAr qEn aAr aEn measured p)) := by
  unfold addFAQItem
  apply initializeFAQ_wiring
  split
  · intro i hs b hi
    simp only [skeleton, List.map_append, List.map_cons, List.map_nil] at hi
    by_cases hlt : i < p.faqItems.length
    · rw [List.getElem?_append_left (by simpa using hlt)] at hi
      exact own i hs b hi
    · rw [List.getElem?_append_right (by simpa using hlt)] at hi
      simp only [List.length_map] at hi
      cases hk : i - p.faqItems.length with
      | zero =>
        simp [hk, newFaqItem] at hi
        intro h hh
        rw [hi.1] at hh
        simp at hh
      | succ k => simp [hk] at hi
  · exact own

/-- `Wiring` holds on every reachable page. -/
theorem Reachable.wiring {p : Page} (r : Reachable p) : Wiring (skeleton p) := by
  induction r with
  | load p hf => exact initializeFAQ_wiring p (fresh_own p hf)
  | click i _ ih => rw [click_skeleton]; exact ih
  | add qAr qEn aAr aEn measured _ ih => exact addFAQItem_wiring _ _ _ _ _ _ ih.own
  | frame _ ih => rw [animationFrame_skeleton]; exact ih

/-- Pages with the same skeleton have the same wired items. -/
theorem wired_of_skeleton_eq {p p2 : Page} (h : skeleton p2 = skeleton p) (i : Nat) :
    wired p2 i = wired p i := by
  have h1 := wired_iff_skeleton p i
  have h2 := wired_iff_skeleton p2 i
  rw [h] at h2
  cases hw : wired p i <;> cases hw2 : wired p2 i <;> simp_all

/-- Pages with the same skeleton have the same number of items. -/
theorem length_of_skeleton_eq {p p2 : Page} (h : skeleton p2 = skeleton p) :
    p2.faqItems.length = p.faqItems.length := by
  rw [← skeleton_length, ← skeleton_length, h]

/-- On a reachable page a click on a wired item ends with the run of the
listener that captured every item. -/
theorem click_last_handler {p : Page} (r : Reachable p) (i : Nat) (hw : wired p i = true) :
    ∃ front : List Handler,
      click i p = clickHandler (Handler.mk p.faqItems.length i)
        (front.foldl (fun page h => clickHandler h page) p) := by
  obtain ⟨hs, hsk⟩ := (wired_iff_skeleton p i).1 hw
  obtain ⟨front, hfront⟩ := (r.wiring i hs true hsk).2 rfl
  refine ⟨front, ?_⟩
  simp only [skeleton, List.getElem?_map] at hsk
  unfold click
  cases hitem : p.faqItems[i]? with
  | none => simp [hitem] at hsk
  | some item =>
    simp only [hitem, Option.map_some', Option.some.injEq, Prod.mk.injEq] at hsk
    cases hq : item.question with
    | none => simp [hq] at hsk
    | some q =>
      simp only [hq, Option.map_some', Option.some.injEq] at hsk
      simp only [hq, hsk.1, hfront, skeleton_length, List.foldl_append, List.foldl_cons,
        List.foldl_nil]

/-- A listener that captured every item leaves no item but its own active. -/
theorem clickHandler_others_closed (p : Page) (i : Nat) (hw : wired p i = true)
    (j : Nat) (item : FaqItem)
    (hj : (clickHandler (Handler.mk p.faqItems.length i) p).faqItems[j]? = some item)
    (hne : j ≠ i) : item.active = false := by
  unfold wired at hw
  cases hitem : p.faqItems[i]? with
  | none => simp [hitem] at hw
  | some own =>
    rw [hitem] at hw
    cases hq : own.question with
    | none => simp [hq] at hw
    | some q =>
      cases ha : own.answer with
      | none => simp [ha] at hw
      | some a =>
        rw [clickHandler_getElem? _ p own q a hitem hq ha j] at hj
        cases hpj : p.faqItems[j]? with
        | none => simp [hpj] at hj
        | some it =>
          have hlt : j < p.faqItems.length := (List.getElem?_eq_some.1 hpj).1
          simp only [hpj, Option.map_some', Option.some.injEq] at hj
          rw [← hj]
          simp [clickEffect, hne, hlt, closeOther, setMaxHeight, setActive]

/-- After a click on a wired item of a reachable page every other item is closed. -/
theorem click_others_closed {p : Page} (r : Reachable p) (i : Nat) (hw : wired p i = true)
    (j : Nat) (item : FaqItem) (hj : (click i p).faqItems[j]? = some item) (hne : j ≠ i) :
    item.active = false := by
  obtain ⟨front, hfront⟩ := click_last_handler r i hw
  have hsk := foldl_clickHandler_skeleton front p
  rw [hfront, ← length_of_skeleton_eq hsk] at hj
  exact clickHandler_others_closed _ i (by rw [wired_of_skeleton_eq hsk]; exact hw) j item hj hne

/-- A list in which every item but the one at `i` is closed has at most one
active item. -/
theorem countP_le_one_of_others (l : List FaqItem) (i : Nat)
    (h : ∀ (j : Nat) (item : FaqItem), l[j]? = some item → j ≠ i → item.active = false) :
    l.countP (fun item => item.active) ≤ 1 := by
  induction l generalizing i with
  | nil => simp
  | cons x t ih =>
    cases i with
    | zero =>
      have hz : t.countP (fun item => item.active) = 0 := by
        rw [List.countP_eq_zero]
        intro a ha
        obtain ⟨n, hn⟩ := List.mem_iff_getElem?.1 ha
        have := h (n + 1) a (by simpa using hn) (by omega)
        simp [this]
      rw [List.countP_cons, hz]
      split <;> omega
    | succ k =>
      have hx : x.active = false := h 0 x (by simp) (by omega)
      rw [List.countP_cons, if_neg (by simp [hx])]
      have := ih k (fun j item hj hne => h (j + 1) item (by simpa using hj) (by omega))
      omega

/-- Listener runs that each do nothing do nothing together. -/
theorem foldl_clickHandler_noop (hs : List Handler) (p : Page)
    (h : ∀ x ∈ hs, clickHandler x p = p) :
    hs.foldl (fun page x => clickHandler x page) p = p := by
  induction hs with
  | nil => rfl
  | cons x t ih =>
    rw [List.foldl_cons, h x (List.mem_cons_self x t)]
    exact ih (fun y hy => h y (List.mem_cons_of_mem x hy))

/-- On a reachable page a click on a question without listeners, or on no
question at all, changes nothing. -/
theorem click_unwired {p : Page} (r : Reachable p) (i : Nat) (hw : wired p i = false) :
    click i p = p := by
  unfold click
  cases hitem : p.faqItems[i]? with
  | none => rfl
  | some item =>
    cases hq : item.question with
    | none => simp only [hq]
    | some q =>
      simp only [hq]
      apply foldl_clickHandler_noop
      intro x hx
      have hown := r.wiring.own i q.clickHandlers item.answer.isSome
        (by simp [skeleton, List.getElem?_map, hitem, hq]) x hx
      exact clickHandler_unwired x p (by rw [hown]; exact hw)

/-- Settled pages are reachable. -/
theorem Settled.reachable {p : Page} (c : Settled p) : Reachable p := by
  induction c with
  | served p hf _ => exact Reachable.load p hf
  | clicked i r _ => exact Reachable.click i r
  | click i _ ih => exact Reachable.click i ih
  | add qAr qEn aAr aEn measured _ ih => exact Reachable.add qAr qEn aAr aEn measured ih
  | frame _ ih => exact Reachable.frame ih

/-- The number of active items is the number of `true` flags. -/
theorem activeCount_eq_count (p : Page) : activeCount p = (activeFlags p).count true := by
  unfold activeCount activeFlags
  rw [List.count, List.countP_map]
  congr 1
  funext item
  simp

/-- `initializeFAQ` does not touch the `active` class of an item. -/
theorem wire_active (n i : Nat) (item : FaqItem) : (wire n i item).active = item.active := by
  cases item with
  | mk a o t q ans => cases q <;> cases ans <;> rfl

/-- `initializeFAQ` does not touch any `active` class. -/
theorem initializeFAQ_activeFlags (p : Page) : activeFlags (initializeFAQ p) = activeFlags p := by
  apply List.ext_getElem?
  intro j
  simp only [activeFlags, initializeFAQ, List.getElem?_map, List.getElem?_mapIdx]
  cases p.faqItems[j]? with
  | none => rfl
  | some it => simp [wire_active]

/-- `addFAQItem` keeps the `active` flags and, with a container, adds one `false`. -/
theorem addFAQItem_activeFlags (qAr qEn aAr aEn : String) (measured : Nat) (p : Page) :
    activeFlags (addFAQItem qAr qEn aAr aEn measured p) =
      activeFlags p ++ (if p.faqContainer = true then [false] else []) := by
  unfold addFAQItem
  simp only []
  rw [initializeFAQ_activeFlags]
  cases p.faqContainer <;> simp [activeFlags, newFaqItem]

/-- An animation frame does not touch any `active` class. -/
theorem animationFrame_activeFlags (p : Page) :
    activeFlags (animationFrame p) = activeFlags p := by
  unfold animationFrame
  split
  · rfl
  · apply List.ext_getElem?
    intro j
    simp only [activeFlags, List.getElem?_map, List.getElem?_modify]
    cases p.faqItems[j]? with
    | none => rfl
    | some it => simp only [Option.map_some', Functor.map]; split_ifs <;> rfl

/-- After a click on a wired item of a reachable page at most one item is active. -/
theorem click_activeCount {p : Page} (r : Reachable p) (i : Nat) (hw : wired p i = true) :
    activeCount (click i p) ≤ 1 :=
  countP_le_one_of_others _ i (fun j item hj hne => click_others_closed r i hw j item hj hne)

/-- Adding a list of entries keeps a page reachable. -/
theorem foldl_addFAQItem_reachable (entries : List (Nat × Faq)) (heights : Nat → Nat) (p : Page)
    (r : Reachable p) :
    Reachable (entries.foldl
      (fun page (entry : Nat × Faq) =>
        addFAQItem entry.2.questionAr entry.2.questionEn entry.2.answerAr entry.2.answerEn
          (heights entry.1) page) p) := by
  induction entries generalizing p with
  | nil => exact r
  | cons e t ih => exact ih _ (Reachable.add _ _ _ _ _ r)

/-- The start-up additions keep a page reachable. -/
theorem addAdditionalFAQs_reachable (heights : Nat → Nat) (p : Page) (r : Reachable p) :
    Reachable (addAdditionalFAQs heights p) :=
  foldl_addFAQItem_reachable additionalFAQs.enum heights p r

/-! ## Lemmas on the markup of a new item -/

/-- A plain-text string, character by character. -/
theorem plainText_iff (s : String) : plainText s = true ↔ PlainChars s.data := by
  simp [plainText, PlainChars, not_or, and_assoc]

/-- Tokenizing a concatenation: the second part is read from where the first
part left the tokenizer. -/
theorem Tokenizer.run_append (t : Tokenizer) (l₁ l₂ : List Char) :
    t.run (l₁ ++ l₂) = (t.run l₁).bind fun t => t.run l₂ := by
  induction l₁ generalizing t with
  | nil => simp [Tokenizer.run]
  | cons c rest ih =>
    simp only [List.cons_append, Tokenizer.run]
    cases t.step c with
    | none => rfl
    | some u => exact ih u

/-- Two runs of the tokenizer, one after the other. -/
theorem Tokenizer.run_trans {t u : Tokenizer} {l₁ l₂ : List Char} {r : Option Tokenizer}
    (h₁ : t.run l₁ = some u) (h₂ : u.run l₂ = r) : t.run (l₁ ++ l₂) = r := by
  rw [Tokenizer.run_append, h₁]
  exact h₂

/-- In the data state plain text joins the pending run of characters. -/
theorem Tokenizer.run_text (l : List Char) (h : PlainChars l) (tokens : List Token)
    (text : List Char) :
    Tokenizer.run ⟨.data, tokens, text, false, [], [], false, [], []⟩ l =
      some ⟨.data, tokens, text ++ l, false, [], [], false, [], []⟩ := by
  induction l generalizing text with
  | nil => simp [Tokenizer.run]
  | cons c rest ih =>
    obtain ⟨h1, -, h3, h4, h5⟩ := h c (List.mem_cons_self _ _)
    have hr := ih (fun d hd => h d (List.mem_cons_of_mem _ hd)) (text ++ [c])
    simp only [Tokenizer.run, Tokenizer.step, Tokenizer.dataState, h1, h3, h4, h5, or_self,
      if_false]
    simpa using hr

/-- In a double-quoted attribute value plain text joins the value. -/
theorem Tokenizer.run_value (l : List Char) (h : PlainChars l) (tokens : List Token)
    (text name : List Char) (attrs : List (String × String)) (attrName attrValue : List Char) :
    Tokenizer.run
        ⟨.attributeValueDoubleQuoted, tokens, text, false, name, attrs, true, attrName, attrValue⟩
        l =
      some ⟨.attributeValueDoubleQuoted, tokens, text, false, name, attrs, true, attrName,
        attrValue ++ l⟩ := by
  induction l generalizing attrValue with
  | nil => simp [Tokenizer.run]
  | cons c rest ih =>
    obtain ⟨-, h2, h3, h4, h5⟩ := h c (List.mem_cons_self _ _)
    have hr := ih (fun d hd => h d (List.mem_cons_of_mem _ hd)) (attrValue ++ [c])
    simp only [Tokenizer.run, Tokenizer.step, h2, h3, h4, h5, or_self, if_false]
    simpa using hr

/-- The characters of the markup: the five pieces of the template around the
six substitutions. -/
theorem faqItemMarkup_data (lang qAr qEn aAr aEn : String) :
    (faqItemMarkup lang qAr qEn aAr aEn).data =
      markupHead ++ qAr.data ++ markupBetween ++ qEn.data ++ markupClose ++
        (if lang = "ar" then qAr else qEn).data ++ markupMiddle ++ aAr.data ++ markupBetween ++
        aEn.data ++ markupClose ++ (if lang = "ar" then aAr else aEn).data ++ markupTail := by
  simp only [faqItemMarkup, String.data_append]
  rfl

/-- The tokenizer on the template up to the first substitution. -/
theorem Tokenizer.run_head :
    Tokenizer.start.run markupHead =
      some ⟨.attributeValueDoubleQuoted,
        [Token.text "\n                ".data, Token.startTag "button" [("class", "faq__question")]],
        "\n                    ".data, false, "span".data, [], true, "data-ar".data, []⟩ := by
  rfl

/-- The tokenizer between the two attribute values of an element. -/
theorem Tokenizer.run_between (tokens : List Token) (text name value : List Char) :
    Tokenizer.run
        ⟨.attributeValueDoubleQuoted, tokens, text, false, name, [], true, "data-ar".data, value⟩
        markupBetween =
      some ⟨.attributeValueDoubleQuoted, tokens, text, false, name,
        [("data-ar", String.mk value)], true, "data-en".data, []⟩ := by
  rfl

/-- The tokenizer at the end of a start tag of the template. -/
theorem Tokenizer.run_close (tokens : List Token) (text name value : List Char) (ar : String) :
    Tokenizer.run
        ⟨.attributeValueDoubleQuoted, tokens, text, false, name, [("data-ar", ar)], true,
          "data-en".data, value⟩
        markupClose =
      some ⟨.data,
        tokens ++ [Token.text text,
          Token.startTag (String.mk name) [("data-ar", ar), ("data-en", String.mk value)]],
        [], false, [], [], false, [], []⟩ := by
  rfl

set_option maxRecDepth 8000 in
/-- The tokenizer between the text of the question and the first attribute
value of the answer. -/
theorem Tokenizer.run_middle (tokens : List Token) (text : List Char) :
    Tokenizer.run ⟨.data, tokens, text, false, [], [], false, [], []⟩ markupMiddle =
      some ⟨.attributeValueDoubleQuoted,
        tokens ++
          [Token.text text, Token.endTag "span",
           Token.text "\n                    ".data, Token.startTag "i" [("class", "fas fa-chevron-down")],
           Token.text [], Token.endTag "i",
           Token.text "\n                ".data, Token.endTag "button",
           Token.text "\n                ".data, Token.startTag "div" [("class", "faq__answer")]],
        "\n                    ".data, false, "p".data, [], true, "data-ar".data, []⟩ := by
  simp [Tokenizer.run, Tokenizer.step, Tokenizer.emitTag, Tokenizer.closeAttribute,
    Tokenizer.startAttribute, Tokenizer.dataState, Tokenizer.beforeAttributeNameState, isTagSpace,
    markupMiddle]

/-- The tokenizer after the text of the answer. -/
theorem Tokenizer.run_tail (tokens : List Token) (text : List Char) :
    Tokenizer.run ⟨.data, tokens, text, false, [], [], false, [], []⟩ markupTail =
      some ⟨.data,
        tokens ++
          [Token.text text, Token.endTag "p", Token.text "\n                ".data, Token.endTag "div"],
        "\n            ".data, false, [], [], false, [], []⟩ := by
  simp [Tokenizer.run, Tokenizer.step, Tokenizer.emitTag, Tokenizer.closeAttribute,
    Tokenizer.startAttribute, Tokenizer.dataState, Tokenizer.beforeAttributeNameState, isTagSpace,
    markupTail]

/-- The tokens of the markup when the four arguments are plain text: the tags
of the template, with the arguments as attribute values and as text. -/
theorem tokenize_faqItemMarkup (lang qAr qEn aAr aEn : String)
    (hqAr : plainText qAr = true) (hqEn : plainText qEn = true)
    (haAr : plainText aAr = true) (haEn : plainText aEn = true) :
    tokenize (faqItemMarkup lang qAr qEn aAr aEn) = some
      [Token.text "\n                ".data,
       Token.startTag "button" [("class", "faq__question")],
       Token.text "\n                    ".data,
       Token.startTag "span" [("data-ar", qAr), ("data-en", qEn)],
       Token.text (if lang = "ar" then qAr else qEn).data,
       Token.endTag "span",
       Token.text "\n                    ".data,
       Token.startTag "i" [("class", "fas fa-chevron-down")],
       Token.text [],
       Token.endTag "i",
       Token.text "\n                ".data,
       Token.endTag "button",
       Token.text "\n                ".data,
       Token.startTag "div" [("class", "faq__answer")],
       Token.text "\n                    ".data,
       Token.startTag "p" [("data-ar", aAr), ("data-en", aEn)],
       Token.text (if lang = "ar" then aAr else aEn).data,
       Token.endTag "p",
       Token.text "\n                ".data,
       Token.endTag "div",
       Token.text "\n            ".data] := by
  rw [plainText_iff] at hqAr hqEn haAr haEn
  have hq : PlainChars (if lang = "ar" then qAr else qEn).data := by
    split <;> assumption
  have ha : PlainChars (if lang = "ar" then aAr else aEn).data := by
    split <;> assumption
  have h := Tokenizer.run_head
  have h := Tokenizer.run_trans h (Tokenizer.run_value _ hqAr _ _ _ _ _ _)
  have h := Tokenizer.run_trans h (Tokenizer.run_between _ _ _ _)
  have h := Tokenizer.run_trans h (Tokenizer.run_value _ hqEn _ _ _ _ _ _)
  have h := Tokenizer.run_trans h (Tokenizer.run_close _ _ _ _ _)
  have h := Tokenizer.run_trans h (Tokenizer.run_text _ hq _ _)
  have h := Tokenizer.run_trans h (Tokenizer.run_middle _ _)
  have h := Tokenizer.run_trans h (Tokenizer.run_value _ haAr _ _ _ _ _ _)
  have h := Tokenizer.run_trans h (Tokenizer.run_between _ _ _ _)
  have h := Tokenizer.run_trans h (Tokenizer.run_value _ haEn _ _ _ _ _ _)
  have h := Tokenizer.run_trans h (Tokenizer.run_close _ _ _ _ _)
  have h := Tokenizer.run_trans h (Tokenizer.run_text _ ha _ _)
  have h := Tokenizer.run_trans h (Tokenizer.run_tail _ _)
  unfold tokenize
  rw [faqItemMarkup_data, h]
  simp

/-- The subtree parsed from the markup when the four arguments are plain text:
one question, one answer, no nested item, and the two bilingual elements. -/
theorem parseFragment_faqItemMarkup (lang qAr qEn aAr aEn : String)
    (hqAr : plainText qAr = true) (hqEn : plainText qEn = true)
    (haAr : plainText aAr = true) (haEn : plainText aEn = true) :
    parseFragment (faqItemMarkup lang qAr qEn aAr aEn) =
      some
        { stack := [], items := [], question := true, answer := true,
          elements := [bilingual lang qAr qEn, bilingual lang aAr aEn] } := by
  unfold parseFragment
  rw [tokenize_faqItemMarkup lang qAr qEn aAr aEn hqAr hqEn haAr haEn]
  simp [Fragment.run, Fragment.step, Fragment.startTag, Fragment.endTag, Fragment.insert,
    Fragment.characters, Fragment.pop, Fragment.popUntil, Fragment.names,
    Fragment.hasParagraphInButtonScope, Fragment.start, supportedTags, unsupportedAttribute,
    ambiguousClass, classList, hasClass, translatableAttrs, Element.translatable,
    Element.getAttribute, asciiLower, selectedClasses, bilingual, List.lookup, List.splitOnP,
    List.splitOnP.go, isTagSpace]

/-- On plain-text arguments `addFAQItem`, its `innerHTML` parsed, is the
`addFAQItem` that takes the template as written. -/
theorem addFAQItemMarkup_plain (qAr qEn aAr aEn : String) (measured : Nat) (p : Page)
    (hqAr : plainText qAr = true) (hqEn : plainText qEn = true)
    (haAr : plainText aAr = true) (haEn : plainText aEn = true) :
    addFAQItemMarkup qAr qEn aAr aEn measured p =
      some (addFAQItem qAr qEn aAr aEn measured p) := by
  unfold addFAQItemMarkup addFAQItem
  cases hc : p.faqContainer
  · simp
  · simp only [if_true]
    rw [parseFragment_faqItemMarkup p.currentLang qAr qEn aAr aEn hqAr hqEn haAr haEn]
    rfl

/-- A list of `addFAQItem` calls whose arguments are plain text, every
`innerHTML` parsed, is the list of calls that take the template as written. -/
theorem foldlM_addFAQItemMarkup (entries : List (Nat × Faq)) (heights : Nat → Nat) (p : Page)
    (h : ∀ entry ∈ entries, entry.2.plain = true) :
    entries.foldlM
        (fun page (entry : Nat × Faq) =>
          addFAQItemMarkup entry.2.questionAr entry.2.questionEn entry.2.answerAr
            entry.2.answerEn (heights entry.1) page)
        p =
      some (addEntries entries heights p) := by
  induction entries generalizing p with
  | nil => rfl
  | cons entry rest ih =>
    have he := h entry (List.mem_cons_self _ _)
    simp only [Faq.plain, Bool.and_eq_true] at he
    obtain ⟨⟨⟨h1, h2⟩, h3⟩, h4⟩ := he
    rw [List.foldlM_cons, addFAQItemMarkup_plain _ _ _ _ _ _ h1 h2 h3 h4]
    exact ih _ (fun e hm => h e (List.mem_cons_of_mem _ hm))

set_option maxRecDepth 100000 in
/-- Every text of the `additionalFAQs` table is plain text. -/
theorem additionalFAQs_plain : additionalFAQs.all Faq.plain = true := by
  decide

/-- The start-up calls of the program pass plain text: with every `innerHTML`
parsed they give the page `addAdditionalFAQs` gives. -/
theorem addAdditionalFAQsMarkup_eq (heights : Nat → Nat) (p : Page) :
    addAdditionalFAQsMarkup heights p = some (addAdditionalFAQs heights p) := by
  have h : ∀ entry ∈ additionalFAQs.enum, entry.2.plain = true := by
    intro entry hm
    have hall := additionalFAQs_plain
    rw [List.all_eq_true] at hall
    exact hall entry.2 (List.snd_mem_of_mem_enum hm)
  exact foldlM_addFAQItemMarkup additionalFAQs.enum heights p h

/-- The `addFAQItem` that takes the template as written leaves the `active`
flag of every item already present unchanged; when the container exists it
adds exactly one item, placed after all of them, not active and wired (when
there is no container no item is added). -/
theorem addFAQItem_frame (qAr qEn aAr aEn : String) (measured : Nat) (p : Page) :
    activeFlags (addFAQItem qAr qEn aAr aEn measured p) =
        activeFlags p ++ (if p.faqContainer = true then [false] else []) ∧
      (addFAQItem qAr qEn aAr aEn measured p).faqItems.length =
        p.faqItems.length + (if p.faqContainer = true then 1 else 0) ∧
      (addFAQItem qAr qEn aAr aEn measured p).faqItems.drop p.faqItems.length =
        (if p.faqContainer = true then
          [wire (p.faqItems.length + 1) p.faqItems.length (newFaqItem measured)]
         else []) := by
  refine ⟨addFAQItem_activeFlags _ _ _ _ _ _, ?_, ?_⟩
  · unfold addFAQItem
    cases p.faqContainer <;> simp [initializeFAQ]
  · unfold addFAQItem
    cases hc : p.faqContainer
    · simp [initializeFAQ]
    · simp only [if_true, initializeFAQ, List.mapIdx_append, List.length_append,
        List.length_cons, List.length_nil]
      rw [List.drop_left' List.length_mapIdx]
      simp [List.mapIdx, List.mapIdx.go]

/-! ## Claims on the accordion -/

/-- Claim C1: on every settled page, that is on every page reachable by clicks
on FAQ questions, `addFAQItem` calls and animation frames either from a page
served with at most one active item, or through a click, dispatched in full,
on a question that has listeners, at most one `.faq__item` carries the `active`
class. -/
theorem exclusivity_settled (p : Page) (h : Settled p) : activeCount p ≤ 1 := by
  induction h with
  | served p _ hone =>
    rw [activeCount_eq_count, initializeFAQ_activeFlags, ← activeCount_eq_count]
    exact hone
  | clicked i r hw => exact click_activeCount r i hw
  | @click i p c ih =>
    cases hw : wired p i
    · rw [click_unwired c.reachable i hw]; exact ih
    · exact click_activeCount c.reachable i hw
  | @add qAr qEn aAr aEn measured p _ ih =>
    rw [activeCount_eq_count] at ih ⊢
    rw [addFAQItem_activeFlags, List.count_append]
    split <;> simpa using ih
  | frame _ ih =>
    rw [activeCount_eq_count] at ih ⊢
    rw [animationFrame_activeFlags]
    exact ih

/-- Claim C1 at a concrete history: load, click on item 1, one `addFAQItem`,
click on item 0. -/
theorem exclusivity_settled_witness :
    Settled (click 0 (addFAQItem "س" "Q" "ج" "A" 50 (click 1 (initializeFAQ samplePage)))) ∧
      activeCount
        (click 0 (addFAQItem "س" "Q" "ج" "A" 50 (click 1 (initializeFAQ samplePage)))) ≤ 1 :=
  have c : Settled
      (click 0 (addFAQItem "س" "Q" "ج" "A" 50 (click 1 (initializeFAQ samplePage)))) :=
    Settled.click 0 (Settled.add "س" "Q" "ج" "A" 50
      (Settled.clicked 1 (Reachable.load samplePage (by decide)) (by decide)))
  ⟨c, exclusivity_settled _ c⟩

/-- Claim C2, evaluated where the code departs from it.  After one
`addFAQItem` every earlier question carries two click listeners, and one click
on the closed item 1 leaves it closed; after the start-up sequence of the
program (first `initializeFAQ`, then the five `additionalFAQs`) the served
items carry six listeners each, and one click on the closed item 0 leaves every
item closed. -/
theorem click_after_reinitialize_stays_closed :
    (Reachable (addFAQItem "س" "Q" "ج" "A" 50 (initializeFAQ samplePage)) ∧
        activeFlags (addFAQItem "س" "Q" "ج" "A" 50 (initializeFAQ samplePage)) =
          [false, false, false, false] ∧
        listenerCount (addFAQItem "س" "Q" "ج" "A" 50 (initializeFAQ samplePage)) 1 = 2 ∧
        activeFlags (click 1 (addFAQItem "س" "Q" "ج" "A" 50 (initializeFAQ samplePage))) =
          [false, false, false, false]) ∧
      (Reachable (addAdditionalFAQs (fun _ => 120) (initializeFAQ samplePage)) ∧
        activeFlags (addAdditionalFAQs (fun _ => 120) (initializeFAQ samplePage)) =
          List.replicate 8 false ∧
        listenerCount (addAdditionalFAQs (fun _ => 120) (initializeFAQ samplePage)) 0 = 6 ∧
        activeFlags (click 0 (addAdditionalFAQs (fun _ => 120) (initializeFAQ samplePage))) =
          List.replicate 8 false) := by
  refine ⟨⟨Reachable.add _ _ _ _ _ (Reachable.load samplePage (by decide)), by decide, by decide,
    by decide⟩, ⟨?_, by decide, by decide, by decide⟩⟩
  exact addAdditionalFAQs_reachable _ _ (Reachable.load samplePage (by decide))

/-- Claim C3: three served items `a`, `b`, `c`, each with a question and an
answer, none active, on which `initializeFAQ` has run once: a click on `b`
leaves exactly `b` active, then a click on `c` leaves exactly `c` active, then a
second click on `c` leaves no item active. -/
theorem scenario_three_items (p : Page) (a b c : FaqItem)
    (hitems : p.faqItems = [a, b, c]) (hfresh : fresh p = true)
    (hwired : wired p 0 = true ∧ wired p 1 = true ∧ wired p 2 = true)
    (hclosed : activeFlags p = [false, false, false]) :
    activeFlags (click 1 (initializeFAQ p)) = [false, true, false] ∧
      activeFlags (click 2 (click 1 (initializeFAQ p))) = [false, false, true] ∧
      activeFlags (click 2 (click 2 (click 1 (initializeFAQ p)))) = [false, false, false] := by
  obtain ⟨aa, ao, at_, aq, aans⟩ := a
  obtain ⟨ba, bo, bt, bq, bans⟩ := b
  obtain ⟨ca, co, ct, cq, cans⟩ := c
  simp only [wired, hitems] at hwired
  simp only [activeFlags, hitems, List.map_cons, List.map_nil, List.cons.injEq, and_true] at hclosed
  simp only [fresh, hitems, Bool.and_eq_true, List.all_cons, List.all_nil, Bool.and_true] at hfresh
  obtain ⟨h0, h1, h2⟩ := hwired
  obtain ⟨rfl, rfl, rfl⟩ := hclosed
  cases aq with
  | none => simp at h0
  | some aq =>
  cases bq with
  | none => simp at h1
  | some bq =>
  cases cq with
  | none => simp at h2
  | some cq =>
  cases aans with
  | none => simp at h0
  | some aans =>
  cases bans with
  | none => simp at h1
  | some bans =>
  cases cans with
  | none => simp at h2
  | some cans =>
  obtain ⟨ah, ak, ad⟩ := aq
  obtain ⟨bh, bk, bd⟩ := bq
  obtain ⟨ch, ck, cd⟩ := cq
  simp only [List.isEmpty_iff, Bool.and_eq_true, decide_eq_true_eq] at hfresh
  obtain ⟨_, ⟨rfl, rfl⟩, ⟨rfl, rfl⟩, ⟨rfl, rfl⟩⟩ := hfresh
  simp [activeFlags, click, clickHandler, initializeFAQ, hitems, wire, List.mapIdx, List.mapIdx.go,
    closeOther, setMaxHeight, setActive, rippleQuestion, List.modify, measure]

/-- Claim C3 on the sample page. -/
theorem scenario_three_items_witness :
    (samplePage.faqItems = [sampleItem 40, sampleItem 60, sampleItem 80] ∧
        fresh samplePage = true ∧
        (wired samplePage 0 = true ∧ wired samplePage 1 = true ∧ wired samplePage 2 = true) ∧
        activeFlags samplePage = [false, false, false]) ∧
      (activeFlags (click 1 (initializeFAQ samplePage)) = [false, true, false] ∧
        activeFlags (click 2 (click 1 (initializeFAQ samplePage))) = [false, false, true] ∧
        activeFlags (click 2 (click 2 (click 1 (initializeFAQ samplePage)))) =
          [false, false, false]) :=
  ⟨⟨rfl, by decide, by decide, by decide⟩,
    scenario_three_items samplePage (sampleItem 40) (sampleItem 60) (sampleItem 80) rfl
      (by decide) (by decide) (by decide)⟩

/-- Claim C4 fails for arguments that hold markup.  On the sample page (three
closed items, Arabic shown) `addFAQItem('س', 'Q', '<div class="faq__item
active">x</div>', 'A')` adds two `.faq__item` elements, the second one active:
the first `"` of the argument ends the `data-ar` value, its `</div>` closes the
answer, and the `<div>` of the text becomes a child of the new item.  So does
`addFAQItem('x" class="faq__item active', 'Q', 'ج', 'A')`, after which the
`<span>` of the template carries both classes. -/
theorem markup_argument_adds_active_item :
    activeFlags samplePage = [false, false, false] ∧
      (addFAQItemMarkup "س" "Q" "<div class=\"faq__item active\">x</div>" "A" 50
          samplePage).map activeFlags =
        some [false, false, false, false, true] ∧
      (addFAQItemMarkup "x\" class=\"faq__item active" "Q" "ج" "A" 50 samplePage).map
          activeFlags =
        some [false, false, false, false, true] := by
  decide

/-- Claim C4, for arguments that are plain text (no `<`, `"` or `&`, no
carriage return, no NUL): for every page, `addFAQItem`, the string it assigns
to `innerHTML` parsed, returns a page on which the `active` flag of every item
already present is unchanged; when the container exists exactly one item has
been added, placed after all of them, not active and wired (when there is no
container no item is added). -/
theorem addFAQItem_plain_frame (qAr qEn aAr aEn : String) (measured : Nat) (p : Page)
    (hqAr : plainText qAr = true) (hqEn : plainText qEn = true)
    (haAr : plainText aAr = true) (haEn : plainText aEn = true) :
    ∃ q, addFAQItemMarkup qAr qEn aAr aEn measured p = some q ∧
      activeFlags q = activeFlags p ++ (if p.faqContainer = true then [false] else []) ∧
      q.faqItems.length = p.faqItems.length + (if p.faqContainer = true then 1 else 0) ∧
      q.faqItems.drop p.faqItems.length =
        (if p.faqContainer = true then
          [wire (p.faqItems.length + 1) p.faqItems.length (newFaqItem measured)]
         else []) :=
  ⟨addFAQItem qAr qEn aAr aEn measured p,
    addFAQItemMarkup_plain qAr qEn aAr aEn measured p hqAr hqEn haAr haEn,
    addFAQItem_frame qAr qEn aAr aEn measured p⟩

/-- Claim C4 on the sample page, for the two question texts of the first entry
of `additionalFAQs` and two short answers. -/
theorem addFAQItem_plain_frame_witness :
    (plainText "إيه قصتكم كبداية؟" = true ∧ plainText "What's your origin story?" = true ∧
        plainText "ج" = true ∧ plainText "A" = true) ∧
      ∃ q, addFAQItemMarkup "إيه قصتكم كبداية؟" "What's your origin story?" "ج" "A" 50
            samplePage = some q ∧
        activeFlags q = activeFlags samplePage ++ [false] ∧
        q.faqItems.length = samplePage.faqItems.length + 1 ∧
        q.faqItems.drop samplePage.faqItems.length = [wire 4 3 (newFaqItem 50)] :=
  ⟨⟨by decide, by decide, by decide, by decide⟩,
    addFAQItem_plain_frame "إيه قصتكم كبداية؟" "What's your origin story?" "ج" "A" 50 samplePage
      (by decide) (by decide) (by decide) (by decide)⟩

/-! ## Lemmas on the preferences -/

/-- Translating an element leaves its attributes as they were. -/
theorem translate_attrs (lang : String) (e : Element) : (translate lang e).attrs = e.attrs := by
  unfold translate
  split
  · rfl
  · split <;> rfl

/-- The elements after `setLanguage`, whether it returned or raised. -/
theorem setLanguage_elements (lang : String) (p : Page) :
    (setLanguage lang p).page.elements =
      p.elements.map fun e => if e.translatable = true then translate lang e else e := by
  unfold setLanguage
  simp only []
  cases p.langToggle with
  | none => rfl
  | some t => cases hw : p.storage.writable <;> simp [hw, Outcome.page]

/-- The language, direction and in-memory language after `setLanguage`, whether
it returned or raised. -/
theorem setLanguage_lang_dir (lang : String) (p : Page) :
    (setLanguage lang p).page.lang = lang ∧
      (setLanguage lang p).page.dir = (if lang = "ar" then "rtl" else "ltr") ∧
      (setLanguage lang p).page.currentLang = lang := by
  unfold setLanguage
  simp only []
  cases p.langToggle with
  | none => simp [Outcome.page]
  | some t => cases hw : p.storage.writable <;> simp [hw, Outcome.page]

/-- Light, dark, light presents what light presents. -/
theorem setTheme_roundtrip_light (p : Page) :
    themePresentation (setTheme "light" (setTheme "dark" (setTheme "light" p).page).page).page =
      themePresentation (setTheme "light" p).page := by
  obtain ⟨cl, ct, l, d, cs, bt, hd, tt, lt, ti, el, ⟨sth, sl, w⟩, ev, fc, fi, fr⟩ := p
  cases hd <;> cases tt with
  | none => simp [setTheme, themePresentation, Outcome.page]
  | some t =>
    obtain ⟨icon, decor⟩ := t
    cases icon <;> cases w <;> simp [setTheme, themePresentation, Outcome.page]

/-- Dark, light, dark presents what dark presents. -/
theorem setTheme_roundtrip_dark (p : Page) :
    themePresentation (setTheme "dark" (setTheme "light" (setTheme "dark" p).page).page).page =
      themePresentation (setTheme "dark" p).page := by
  obtain ⟨cl, ct, l, d, cs, bt, hd, tt, lt, ti, el, ⟨sth, sl, w⟩, ev, fc, fi, fr⟩ := p
  cases hd <;> cases tt with
  | none => simp [setTheme, themePresentation, Outcome.page]
  | some t =>
    obtain ⟨icon, decor⟩ := t
    cases icon <;> cases w <;> simp [setTheme, themePresentation, Outcome.page]

/-- `setTheme` is idempotent on the presentation. -/
theorem setTheme_presents (t : String) (p : Page) : Presents t (setTheme t p).page := by
  unfold Presents
  obtain ⟨cl, ct, l, d, cs, bt, hd, tt, lt, ti, el, ⟨sth, sl, w⟩, ev, fc, fi, fr⟩ := p
  cases hd <;> cases tt with
  | none => simp [setTheme, themePresentation, Outcome.page]
  | some t =>
    obtain ⟨icon, decor⟩ := t
    cases icon <;> cases w <;> simp [setTheme, themePresentation, Outcome.page]

/-- The in-memory theme after `setTheme`, whether it returned or raised. -/
theorem setTheme_currentTheme (t : String) (p : Page) :
    (setTheme t p).page.currentTheme = t := by
  obtain ⟨cl, ct, l, d, cs, bt, hd, tt, lt, ti, el, ⟨sth, sl, w⟩, ev, fc, fi, fr⟩ := p
  cases tt with
  | none => simp [setTheme, Outcome.page]
  | some t =>
    obtain ⟨icon, decor⟩ := t
    cases icon <;> cases w <;> simp [setTheme, Outcome.page]

/-- Two toggles on a page that presents its legal in-memory theme give that
presentation back. -/
theorem toggleTheme_twice (t : String) (q : Page) (ht : t = "light" ∨ t = "dark")
    (hcur : q.currentTheme = t) (hq : Presents t q) :
    themePresentation (toggleTheme (toggleTheme q).page).page = themePresentation q ∧
      (toggleTheme (toggleTheme q).page).page.currentTheme = t ∧
      Presents t (toggleTheme (toggleTheme q).page).page := by
  unfold Presents at *
  obtain ⟨cl, ct, l, d, cs, bt, hd, tt, lt, ti, el, ⟨sth, sl, w⟩, ev, fc, fi, fr⟩ := q
  simp only at hcur
  subst hcur
  rcases ht with rfl | rfl <;> cases hd <;> cases tt with
  | none => simpa [toggleTheme, setTheme, themePresentation, Outcome.page] using hq
  | some t =>
    obtain ⟨icon, decor⟩ := t
    cases icon <;> cases w <;>
      simpa [toggleTheme, setTheme, themePresentation, Outcome.page] using hq

/-- An even number of toggles on a page that presents its legal in-memory theme
gives that presentation back. -/
theorem toggleThemes_even (t : String) (q : Page) (n : Nat) (ht : t = "light" ∨ t = "dark")
    (hcur : q.currentTheme = t) (hq : Presents t q) :
    themePresentation (toggleThemes (2 * n) q) = themePresentation q ∧
      (toggleThemes (2 * n) q).currentTheme = t ∧ Presents t (toggleThemes (2 * n) q) := by
  induction n with
  | zero => exact ⟨rfl, hcur, hq⟩
  | succ k ih =>
    have hstep : toggleThemes (2 * (k + 1)) q =
        (toggleTheme (toggleTheme (toggleThemes (2 * k) q)).page).page := by
      unfold toggleThemes
      rw [show 2 * (k + 1) = (2 * k + 1) + 1 by ring, Function.iterate_succ_apply',
        Function.iterate_succ_apply']
    obtain ⟨h1, h2, h3⟩ := ih
    obtain ⟨g1, g2, g3⟩ := toggleTheme_twice t _ ht h2 h3
    rw [hstep]
    exact ⟨g1.trans h1, g2, g3⟩

/-- `setLanguage` sets the in-memory language and keeps the in-memory theme. -/
theorem setLanguage_currentLang (t : String) (p : Page) :
    (setLanguage t p).page.currentLang = t ∧
      (setLanguage t p).page.currentTheme = p.currentTheme := by
  obtain ⟨cl, ct, l, d, cs, bt, hd, tt, lt, ti, el, ⟨sth, sl, w⟩, ev, fc, fi, fr⟩ := p
  cases lt with
  | none => simp [setLanguage, Outcome.page]
  | some t => cases w <;> simp [setLanguage, Outcome.page]

/-- The in-memory theme after `toggleTheme`, whether it returned or raised. -/
theorem toggleTheme_currentTheme (p : Page) :
    (toggleTheme p).page.currentTheme = (if p.currentTheme = "light" then "dark" else "light") := by
  obtain ⟨cl, ct, l, d, cs, bt, hd, tt, lt, ti, el, ⟨sth, sl, w⟩, ev, fc, fi, fr⟩ := p
  cases tt with
  | none => simp [toggleTheme, setTheme, Outcome.page]
  | some t =>
    obtain ⟨icon, decor⟩ := t
    cases icon <;> cases w <;> simp [toggleTheme, setTheme, Outcome.page]

/-- The in-memory language after `toggleLanguage`, whether it returned or raised. -/
theorem toggleLanguage_currentLang (p : Page) :
    (toggleLanguage p).page.currentLang = (if p.currentLang = "ar" then "en" else "ar") := by
  obtain ⟨cl, ct, l, d, cs, bt, hd, tt, lt, ti, el, ⟨sth, sl, w⟩, ev, fc, fi, fr⟩ := p
  cases lt with
  | none => simp [toggleLanguage, setLanguage, Outcome.page]
  | some t => cases w <;> simp [toggleLanguage, setLanguage, Outcome.page]

/-- `setTheme` does not touch the stored language. -/
theorem setTheme_storage_language (t : String) (p : Page) :
    (setTheme t p).page.storage.language = p.storage.language := by
  obtain ⟨cl, ct, l, d, cs, bt, hd, tt, lt, ti, el, ⟨sth, sl, w⟩, ev, fc, fi, fr⟩ := p
  cases tt with
  | none => simp [setTheme, Outcome.page]
  | some t =>
    obtain ⟨icon, decor⟩ := t
    cases icon <;> cases w <;> simp [setTheme, Outcome.page]

/-! ## Claims on the preferences -/

/-- Claim C5 fails as stated: on the page on which an FAQ item with an empty
English question has been added, after `setLanguage('en')` not every element
matching `[data-ar][data-en]` shows its `data-en` text: the question still
shows its Arabic text. -/
theorem setLanguage_skips_empty_payload :
    ¬ ShowsLanguage "en" (setLanguage "en" emptyPayloadPage).page := by
  decide

/-- Claim C5, amended: after every `setLanguage(lang)` with `lang` in
`{'ar','en'}`, following any earlier calls, every element matching
`[data-ar][data-en]` whose `data-<lang>` text is not empty shows that text, an
element whose `data-<lang>` text is empty is left as it was, the document
direction is `rtl` exactly when `lang` is `'ar'`, and the document language is
`lang`. -/
theorem setLanguage_shows (p : Page) (earlier : List String) (lang : String)
    (hlang : lang = "ar" ∨ lang = "en") :
    (∀ e ∈ (setLanguage lang (setLanguages earlier p)).page.elements,
        e.translatable = true → ∀ text, e.getAttribute ("data-" ++ lang) = some text →
          text ≠ "" → e.textContent = text) ∧
      (∀ (i : Nat) (e : Element), (setLanguages earlier p).elements[i]? = some e →
        e.translatable = true → e.getAttribute ("data-" ++ lang) = some "" →
          (setLanguage lang (setLanguages earlier p)).page.elements[i]? = some e) ∧
      ((setLanguage lang (setLanguages earlier p)).page.dir = "rtl" ↔ lang = "ar") ∧
      (setLanguage lang (setLanguages earlier p)).page.lang = lang := by
  generalize setLanguages earlier p = q
  obtain ⟨h1, h2, -⟩ := setLanguage_lang_dir lang q
  refine ⟨?_, ?_, ?_, h1⟩
  · intro e he htr text hattr hne
    rw [setLanguage_elements, List.mem_map] at he
    obtain ⟨e0, -, rfl⟩ := he
    by_cases h0 : e0.translatable = true
    · simp only [h0, if_true] at hattr htr ⊢
      have hat : (translate lang e0).getAttribute ("data-" ++ lang) =
          e0.getAttribute ("data-" ++ lang) := by
        simp [Element.getAttribute, translate_attrs]
      rw [hat] at hattr
      simp [translate, hattr, hne]
    · simp only [h0] at htr
      simp [h0] at htr
  · intro i e hi htr hattr
    rw [setLanguage_elements, List.getElem?_map, hi]
    simp [htr, translate, hattr]
  · rw [h2]
    rcases hlang with rfl | rfl <;> simp

/-- Claim C5, amended, on the page with an empty English question after the
calls `setLanguage('ar')`, `setLanguage('en')`. -/
theorem setLanguage_shows_witness :
    ("en" = "ar" ∨ "en" = "en") ∧
      ((∀ e ∈ (setLanguage "en" (setLanguages ["ar"] emptyPayloadPage)).page.elements,
          e.translatable = true → ∀ text, e.getAttribute ("data-" ++ "en") = some text →
            text ≠ "" → e.textContent = text) ∧
        (∀ (i : Nat) (e : Element), (setLanguages ["ar"] emptyPayloadPage).elements[i]? = some e →
          e.translatable = true → e.getAttribute ("data-" ++ "en") = some "" →
            (setLanguage "en" (setLanguages ["ar"] emptyPayloadPage)).page.elements[i]? = some e) ∧
        ((setLanguage "en" (setLanguages ["ar"] emptyPayloadPage)).page.dir = "rtl" ↔ "en" = "ar") ∧
        (setLanguage "en" (setLanguages ["ar"] emptyPayloadPage)).page.lang = "en") :=
  ⟨Or.inr rfl, setLanguage_shows emptyPayloadPage ["ar"] "en" (Or.inr rfl)⟩

/-- Claim C6: from the page `setTheme('light')` leaves, `setTheme('dark')` then
`setTheme('light')` gives back the same `currentTheme`, `data-color-scheme`,
`data-theme` of body and header, header background, toggle icon class and
colour, and stored theme; likewise from `setTheme('dark')` through `'light'`
and back; and from the page `setTheme(t)` leaves for a legal `t`, any even
number of `toggleTheme` calls gives back that presentation. -/
theorem theme_reversible (p : Page) (t : String) (n : Nat) (ht : t = "light" ∨ t = "dark") :
    themePresentation (setTheme "light" (setTheme "dark" (setTheme "light" p).page).page).page =
        themePresentation (setTheme "light" p).page ∧
      themePresentation (setTheme "dark" (setTheme "light" (setTheme "dark" p).page).page).page =
        themePresentation (setTheme "dark" p).page ∧
      themePresentation (toggleThemes (2 * n) (setTheme t p).page) =
        themePresentation (setTheme t p).page :=
  ⟨setTheme_roundtrip_light p, setTheme_roundtrip_dark p,
    (toggleThemes_even t _ n ht (setTheme_currentTheme t p) (setTheme_presents t p)).1⟩

/-- Claim C6 on the sample page, with `t = 'dark'` and six toggles. -/
theorem theme_reversible_witness :
    ("dark" = "light" ∨ "dark" = "dark") ∧
      (themePresentation
            (setTheme "light" (setTheme "dark" (setTheme "light" samplePage).page).page).page =
          themePresentation (setTheme "light" samplePage).page ∧
        themePresentation
            (setTheme "dark" (setTheme "light" (setTheme "dark" samplePage).page).page).page =
          themePresentation (setTheme "dark" samplePage).page ∧
        themePresentation (toggleThemes (2 * 3) (setTheme "dark" samplePage).page) =
          themePresentation (setTheme "dark" samplePage).page) :=
  ⟨Or.inr rfl, theme_reversible samplePage "dark" 3 (Or.inr rfl)⟩

/-- Claim C7 fails as stated: `'blue'` is no legal theme and `'fr'` no legal
language, yet `setTheme('blue')` and `setLanguage('fr')` change the page: the
in-memory value, the document attribute and the stored value become the given
value and a notification carrying it is emitted. -/
theorem invalid_value_is_applied :
    ("blue" ≠ "light" ∧ "blue" ≠ "dark" ∧ "fr" ≠ "ar" ∧ "fr" ≠ "en") ∧
      (setTheme "blue" samplePage).page ≠ samplePage ∧
      (setTheme "blue" samplePage).page.currentTheme = "blue" ∧
      (setTheme "blue" samplePage).page.colorScheme = some "blue" ∧
      (setTheme "blue" samplePage).page.storage.theme = some "blue" ∧
      (setTheme "blue" samplePage).page.events = [Notification.mk "themeChanged" "blue"] ∧
      (setLanguage "fr" samplePage).page ≠ samplePage ∧
      (setLanguage "fr" samplePage).page.currentLang = "fr" ∧
      (setLanguage "fr" samplePage).page.lang = "fr" ∧
      (setLanguage "fr" samplePage).page.storage.language = some "fr" ∧
      (setLanguage "fr" samplePage).page.events = [Notification.mk "languageChanged" "fr"] := by
  decide

/-- Claim C7, amended: `setTheme` and `setLanguage` do not validate their
argument.  For every value, legal or not, on a page that has both toggle
controls (the theme toggle with its icon) and a store that accepts writes, the
call returns normally, the in-memory value, the document attributes and the
stored value are that value, and one notification carrying it is emitted; a
theme other than `'dark'` gets the light header background and the moon icon,
a language other than `'ar'` gets direction `ltr`, the toggle label `عربي` and
the English title. -/
theorem set_applies_any_value (value : String) (p : Page) (t : ThemeToggle) (i : Icon)
    (l : LangToggle) (ht : p.themeToggle = some t) (hi : t.icon = some i)
    (hl : p.langToggle = some l) (hw : p.storage.writable = true) :
    ((setTheme value p).raised = false ∧
        (setTheme value p).page.currentTheme = value ∧
        (setTheme value p).page.colorScheme = some value ∧
        (setTheme value p).page.bodyTheme = some value ∧
        (setTheme value p).page.storage.theme = some value ∧
        (setTheme value p).page.events = p.events ++ [Notification.mk "themeChanged" value] ∧
        (value ≠ "dark" →
          (setTheme value p).page.header =
            p.header.map (fun _ => Header.mk (some value) "rgba(255, 255, 253, 0.95)") ∧
          (setTheme value p).page.themeToggle.map (fun b => b.icon) =
            some (some { className := "fas fa-moon", color := "#21808d" }))) ∧
      ((setLanguage value p).raised = false ∧
        (setLanguage value p).page.currentLang = value ∧
        (setLanguage value p).page.lang = value ∧
        (setLanguage value p).page.storage.language = some value ∧
        (setLanguage value p).page.events =
          p.events ++ [Notification.mk "languageChanged" value] ∧
        (value ≠ "ar" →
          (setLanguage value p).page.dir = "ltr" ∧
          (setLanguage value p).page.langToggle.map (fun b => b.textContent) = some "عربي" ∧
          (setLanguage value p).page.title = "The Smart Path - Your Smart Path to Study")) := by
  obtain ⟨cl, ct, lg, d, cs, bt, hd, tt, lt, ti, el, ⟨sth, sl, w⟩, ev, fc, fi, fr⟩ := p
  simp only at ht hl hw
  subst ht hl hw
  obtain ⟨icon, decor⟩ := t
  simp only at hi
  subst hi
  constructor
  · cases hd <;> simp [setTheme, Outcome.page, Outcome.raised]
  · simp [setLanguage, Outcome.page, Outcome.raised]

/-- Claim C7, amended, on the sample page with the value `'blue'`. -/
theorem set_applies_any_value_witness :
    (samplePage.themeToggle = some sampleThemeToggle ∧ sampleThemeToggle.icon = some sampleIcon ∧
        samplePage.langToggle = some sampleLangToggle ∧ samplePage.storage.writable = true) ∧
      (((setTheme "blue" samplePage).raised = false ∧
        (setTheme "blue" samplePage).page.currentTheme = "blue" ∧
        (setTheme "blue" samplePage).page.colorScheme = some "blue" ∧
        (setTheme "blue" samplePage).page.bodyTheme = some "blue" ∧
        (setTheme "blue" samplePage).page.storage.theme = some "blue" ∧
        (setTheme "blue" samplePage).page.events =
          samplePage.events ++ [Notification.mk "themeChanged" "blue"] ∧
        ("blue" ≠ "dark" →
          (setTheme "blue" samplePage).page.header =
            samplePage.header.map (fun _ => Header.mk (some "blue") "rgba(255, 255, 253, 0.95)") ∧
          (setTheme "blue" samplePage).page.themeToggle.map (fun b => b.icon) =
            some (some { className := "fas fa-moon", color := "#21808d" }))) ∧
      ((setLanguage "blue" samplePage).raised = false ∧
        (setLanguage "blue" samplePage).page.currentLang = "blue" ∧
        (setLanguage "blue" samplePage).page.lang = "blue" ∧
        (setLanguage "blue" samplePage).page.storage.language = some "blue" ∧
        (setLanguage "blue" samplePage).page.events =
          samplePage.events ++ [Notification.mk "languageChanged" "blue"] ∧
        ("blue" ≠ "ar" →
          (setLanguage "blue" samplePage).page.dir = "ltr" ∧
          (setLanguage "blue" samplePage).page.langToggle.map (fun b => b.textContent) =
            some "عربي" ∧
          (setLanguage "blue" samplePage).page.title =
            "The Smart Path - Your Smart Path to Study"))) :=
  ⟨⟨rfl, rfl, rfl, rfl⟩,
    set_applies_any_value "blue" samplePage sampleThemeToggle sampleIcon sampleLangToggle
      rfl rfl rfl rfl⟩

/-- Claim C8 fails as stated: with `'blue'` and `'fr'` in the store,
`initializeTheme` leaves `currentTheme = 'blue'` and `initializeLanguage` leaves
`currentLang = 'fr'`, neither of them a legal value. -/
theorem unrecognised_stored_value_is_adopted :
    (initializeTheme strangeStorePage).page.currentTheme = "blue" ∧
      ¬ ((initializeTheme strangeStorePage).page.currentTheme = "light" ∨
          (initializeTheme strangeStorePage).page.currentTheme = "dark") ∧
      (initializeLanguage strangeStorePage).page.currentLang = "fr" ∧
      ¬ ((initializeLanguage strangeStorePage).page.currentLang = "ar" ∨
          (initializeLanguage strangeStorePage).page.currentLang = "en") := by
  decide

/-- Claim C8, amended: when each stored entry is missing, empty or legal, after
`initializeTheme` and `initializeLanguage` the in-memory theme is `'light'` or
`'dark'` and the in-memory language is `'ar'` or `'en'`; a missing or empty
entry yields the default `'light'` / `'ar'`; and on every page `q` whatsoever
`toggleTheme` and `toggleLanguage` leave a legal in-memory value. -/
theorem initialize_values (p q : Page)
    (hth : p.storage.theme = none ∨ p.storage.theme = some "" ∨
      p.storage.theme = some "light" ∨ p.storage.theme = some "dark")
    (hlg : p.storage.language = none ∨ p.storage.language = some "" ∨
      p.storage.language = some "ar" ∨ p.storage.language = some "en") :
    (((initializeLanguage (initializeTheme p).page).page.currentTheme = "light" ∨
        (initializeLanguage (initializeTheme p).page).page.currentTheme = "dark") ∧
      ((initializeLanguage (initializeTheme p).page).page.currentLang = "ar" ∨
        (initializeLanguage (initializeTheme p).page).page.currentLang = "en")) ∧
      ((p.storage.theme = none ∨ p.storage.theme = some "" →
          (initializeLanguage (initializeTheme p).page).page.currentTheme = "light") ∧
        (p.storage.language = none ∨ p.storage.language = some "" →
          (initializeLanguage (initializeTheme p).page).page.currentLang = "ar")) ∧
      (((toggleTheme q).page.currentTheme = "light" ∨ (toggleTheme q).page.currentTheme = "dark") ∧
        ((toggleLanguage q).page.currentLang = "ar" ∨ (toggleLanguage q).page.currentLang = "en")) := by
  have hT : (initializeLanguage (initializeTheme p).page).page.currentTheme =
      orDefault p.storage.theme "light" := by
    unfold initializeLanguage initializeTheme
    rw [(setLanguage_currentLang _ _).2, setTheme_currentTheme]
  have hL : (initializeLanguage (initializeTheme p).page).page.currentLang =
      orDefault p.storage.language "ar" := by
    unfold initializeLanguage initializeTheme
    rw [(setLanguage_currentLang _ _).1, setTheme_storage_language]
  rw [hT, hL, toggleTheme_currentTheme, toggleLanguage_currentLang]
  refine ⟨⟨?_, ?_⟩, ⟨?_, ?_⟩, ⟨?_, ?_⟩⟩
  · rcases hth with h | h | h | h <;> simp [h, orDefault]
  · rcases hlg with h | h | h | h <;> simp [h, orDefault]
  · intro h; rcases h with h | h <;> simp [h, orDefault]
  · intro h; rcases h with h | h <;> simp [h, orDefault]
  · split <;> simp
  · split <;> simp

/-- Claim C8, amended, with `'dark'` stored and no stored language; the toggles
are taken on the page whose store holds unrecognised values. -/
theorem initialize_values_witness :
    ((darkStorePage.storage.theme = none ∨ darkStorePage.storage.theme = some "" ∨
          darkStorePage.storage.theme = some "light" ∨ darkStorePage.storage.theme = some "dark") ∧
        (darkStorePage.storage.language = none ∨ darkStorePage.storage.language = some "" ∨
          darkStorePage.storage.language = some "ar" ∨
          darkStorePage.storage.language = some "en")) ∧
      ((((initializeLanguage (initializeTheme darkStorePage).page).page.currentTheme = "light" ∨
        (initializeLanguage (initializeTheme darkStorePage).page).page.currentTheme = "dark") ∧
      ((initializeLanguage (initializeTheme darkStorePage).page).page.currentLang = "ar" ∨
        (initializeLanguage (initializeTheme darkStorePage).page).page.currentLang = "en")) ∧
      ((darkStorePage.storage.theme = none ∨ darkStorePage.storage.theme = some "" →
          (initializeLanguage (initializeTheme darkStorePage).page).page.currentTheme = "light") ∧
        (darkStorePage.storage.language = none ∨ darkStorePage.storage.language = some "" →
          (initializeLanguage (initializeTheme darkStorePage).page).page.currentLang = "ar")) ∧
      (((toggleTheme strangeStorePage).page.currentTheme = "light" ∨
          (toggleTheme strangeStorePage).page.currentTheme = "dark") ∧
        ((toggleLanguage strangeStorePage).page.currentLang = "ar" ∨
          (toggleLanguage strangeStorePage).page.currentLang = "en"))) :=
  ⟨⟨Or.inr (Or.inr (Or.inr rfl)), Or.inl rfl⟩,
    initialize_values darkStorePage strangeStorePage (Or.inr (Or.inr (Or.inr rfl))) (Or.inl rfl)⟩

/-- Claim C9: on a page `p` whose theme toggle and its icon exist and whose
store accepts writes and holds no `theme` entry, `initializeTheme` raises
nothing and leaves `currentTheme`, the root `data-color-scheme`, the
`data-theme` of body and of the header (when there is one) and the stored theme
all `'light'`, with the icon class `fas fa-moon`; on such a page `d` whose store
holds `'dark'` it leaves the icon class `fas fa-sun`. -/
theorem initializeTheme_default (p d : Page) (t td : ThemeToggle) (i id : Icon)
    (ht : p.themeToggle = some t) (hi : t.icon = some i) (hw : p.storage.writable = true)
    (hnone : p.storage.theme = none)
    (hdt : d.themeToggle = some td) (hdi : td.icon = some id) (hdw : d.storage.writable = true)
    (hdark : d.storage.theme = some "dark") :
    ((initializeTheme p).raised = false ∧
        (initializeTheme p).page.currentTheme = "light" ∧
        (initializeTheme p).page.colorScheme = some "light" ∧
        (initializeTheme p).page.bodyTheme = some "light" ∧
        (initializeTheme p).page.header.map (fun h => h.dataTheme) =
          p.header.map (fun _ => some "light") ∧
        (initializeTheme p).page.themeToggle.map (fun b => b.icon.map fun c => c.className) =
          some (some "fas fa-moon") ∧
        (initializeTheme p).page.storage.theme = some "light") ∧
      ((initializeTheme d).raised = false ∧
        (initializeTheme d).page.currentTheme = "dark" ∧
        (initializeTheme d).page.themeToggle.map (fun b => b.icon.map fun c => c.className) =
          some (some "fas fa-sun")) := by
  obtain ⟨cl, ct, lg, dr, cs, bt, hd, tt, lt, ti, el, ⟨sth, sl, w⟩, ev, fc, fi, fr⟩ := p
  obtain ⟨dcl, dct, dlg, ddr, dcs, dbt, dhd, dtt, dlt, dti, del, ⟨dsth, dsl, dw⟩, dev, dfc, dfi,
    dfr⟩ := d
  simp only at ht hw hnone hdt hdw hdark
  subst ht hw hnone hdt hdw hdark
  obtain ⟨icon, decor⟩ := t
  obtain ⟨dicon, ddecor⟩ := td
  simp only at hi hdi
  subst hi hdi
  constructor
  · cases hd <;> simp [initializeTheme, orDefault, setTheme, Outcome.page, Outcome.raised]
  · cases dhd <;> simp [initializeTheme, orDefault, setTheme, Outcome.page, Outcome.raised]

/-- Claim C9 on the sample page, whose store is empty, and on the sample page
with `'dark'` stored. -/
theorem initializeTheme_default_witness :
    ((samplePage.themeToggle = some sampleThemeToggle ∧
          sampleThemeToggle.icon = some sampleIcon ∧
          samplePage.storage.writable = true ∧
          samplePage.storage.theme = none) ∧
        (darkStorePage.themeToggle = some sampleThemeToggle ∧
          sampleThemeToggle.icon = some sampleIcon ∧
          darkStorePage.storage.writable = true ∧
          darkStorePage.storage.theme = some "dark")) ∧
      (((initializeTheme samplePage).raised = false ∧
          (initializeTheme samplePage).page.currentTheme = "light" ∧
          (initializeTheme samplePage).page.colorScheme = some "light" ∧
          (initializeTheme samplePage).page.bodyTheme = some "light" ∧
          (initializeTheme samplePage).page.header.map (fun h => h.dataTheme) =
            samplePage.header.map (fun _ => some "light") ∧
          (initializeTheme samplePage).page.themeToggle.map
              (fun b => b.icon.map fun c => c.className) =
            some (some "fas fa-moon") ∧
          (initializeTheme samplePage).page.storage.theme = some "light") ∧
        ((initializeTheme darkStorePage).raised = false ∧
          (initializeTheme darkStorePage).page.currentTheme = "dark" ∧
          (initializeTheme darkStorePage).page.themeToggle.map
              (fun b => b.icon.map fun c => c.className) =
            some (some "fas fa-sun"))) :=
  ⟨⟨⟨rfl, rfl, rfl, rfl⟩, ⟨rfl, rfl, rfl, rfl⟩⟩,
    initializeTheme_default samplePage darkStorePage sampleThemeToggle sampleThemeToggle
      sampleIcon sampleIcon rfl rfl rfl rfl rfl rfl rfl rfl⟩

/-- Claim C10: on a page whose in-memory theme is `t` and language is `l`, the
pair `t`, `o` being the two legal themes in either order and `l`, `m` the two
legal languages in either order, `toggleTheme` leaves the same page as
`setTheme(o)` and `toggleLanguage` the same page as `setLanguage(m)` (the ripple
decoration of the toggle button apart), raising exactly when that call raises;
the in-memory value after a toggle is the other legal value, never a third
one, and two toggles in a row give back the in-memory value. -/
theorem toggle_is_set_other (p : Page) (t o l m : String)
    (hto : (t = "light" ∧ o = "dark") ∨ (t = "dark" ∧ o = "light"))
    (hlm : (l = "ar" ∧ m = "en") ∨ (l = "en" ∧ m = "ar"))
    (hth : p.currentTheme = t) (hlg : p.currentLang = l) :
    (sansDecor (toggleTheme p).page = sansDecor (setTheme o p).page ∧
        (toggleTheme p).raised = (setTheme o p).raised ∧
        sansDecor (toggleLanguage p).page = sansDecor (setLanguage m p).page ∧
        (toggleLanguage p).raised = (setLanguage m p).raised) ∧
      ((toggleTheme p).page.currentTheme = o ∧
        (toggleTheme p).page.currentTheme ≠ p.currentTheme ∧
        (toggleLanguage p).page.currentLang = m ∧
        (toggleLanguage p).page.currentLang ≠ p.currentLang) ∧
      ((toggleTheme (toggleTheme p).page).page.currentTheme = p.currentTheme ∧
        (toggleLanguage (toggleLanguage p).page).page.currentLang = p.currentLang) := by
  obtain ⟨cl, ct, lg, d, cs, bt, hd, tt, lt, ti, el, ⟨sth, sl, w⟩, ev, fc, fi, fr⟩ := p
  simp only at hth hlg
  subst hth hlg
  refine ⟨⟨?_, ?_, ?_, ?_⟩, ?_, ?_⟩
  · rcases hto with ⟨rfl, rfl⟩ | ⟨rfl, rfl⟩ <;> cases tt with
    | none => simp [toggleTheme, setTheme, Outcome.page, Outcome.raised]
    | some b =>
      obtain ⟨icon, decor⟩ := b
      cases icon <;> cases w <;>
        simp [toggleTheme, setTheme, Outcome.page, Outcome.raised, sansDecor]
  · rcases hto with ⟨rfl, rfl⟩ | ⟨rfl, rfl⟩ <;> cases tt with
    | none => simp [toggleTheme, setTheme, Outcome.page, Outcome.raised]
    | some b =>
      obtain ⟨icon, decor⟩ := b
      cases icon <;> cases w <;>
        simp [toggleTheme, setTheme, Outcome.page, Outcome.raised, sansDecor]
  · rcases hlm with ⟨rfl, rfl⟩ | ⟨rfl, rfl⟩ <;> cases lt with
    | none => simp [toggleLanguage, setLanguage, Outcome.page, Outcome.raised]
    | some b =>
      cases w <;> simp [toggleLanguage, setLanguage, Outcome.page, Outcome.raised, sansDecor]
  · rcases hlm with ⟨rfl, rfl⟩ | ⟨rfl, rfl⟩ <;> cases lt with
    | none => simp [toggleLanguage, setLanguage, Outcome.page, Outcome.raised]
    | some b =>
      cases w <;> simp [toggleLanguage, setLanguage, Outcome.page, Outcome.raised, sansDecor]
  · simp only [toggleTheme_currentTheme, toggleLanguage_currentLang]
    rcases hto with ⟨rfl, rfl⟩ | ⟨rfl, rfl⟩ <;> rcases hlm with ⟨rfl, rfl⟩ | ⟨rfl, rfl⟩ <;> simp
  · simp only [toggleTheme_currentTheme, toggleLanguage_currentLang]
    rcases hto with ⟨rfl, rfl⟩ | ⟨rfl, rfl⟩ <;> rcases hlm with ⟨rfl, rfl⟩ | ⟨rfl, rfl⟩ <;> simp

/-- Claim C10 on the sample page after `setTheme('dark')`: the theme goes from
`'dark'` to `'light'`, the language from `'ar'` to `'en'`. -/
theorem toggle_is_set_other_witness :
    ((("dark" = "light" ∧ "light" = "dark") ∨ ("dark" = "dark" ∧ "light" = "light")) ∧
        (("ar" = "ar" ∧ "en" = "en") ∨ ("ar" = "en" ∧ "en" = "ar")) ∧
        (setTheme "dark" samplePage).page.currentTheme = "dark" ∧
        (setTheme "dark" samplePage).page.currentLang = "ar") ∧
      ((sansDecor (toggleTheme (setTheme "dark" samplePage).page).page =
            sansDecor (setTheme "light" (setTheme "dark" samplePage).page).page ∧
          (toggleTheme (setTheme "dark" samplePage).page).raised =
            (setTheme "light" (setTheme "dark" samplePage).page).raised ∧
          sansDecor (toggleLanguage (setTheme "dark" samplePage).page).page =
            sansDecor (setLanguage "en" (setTheme "dark" samplePage).page).page ∧
          (toggleLanguage (setTheme "dark" samplePage).page).raised =
            (setLanguage "en" (setTheme "dark" samplePage).page).raised) ∧
        ((toggleTheme (setTheme "dark" samplePage).page).page.currentTheme = "light" ∧
          (toggleTheme (setTheme "dark" samplePage).page).page.currentTheme ≠
            (setTheme "dark" samplePage).page.currentTheme ∧
          (toggleLanguage (setTheme "dark" samplePage).page).page.currentLang = "en" ∧
          (toggleLanguage (setTheme "dark" samplePage).page).page.currentLang ≠
            (setTheme "dark" samplePage).page.currentLang) ∧
        ((toggleTheme (toggleTheme (setTheme "dark" samplePage).page).page).page.currentTheme =
            (setTheme "dark" samplePage).page.currentTheme ∧
          (toggleLanguage (toggleLanguage (setTheme "dark" samplePage).page).page).page.currentLang =
            (setTheme "dark" samplePage).page.currentLang)) :=
  ⟨⟨Or.inr ⟨rfl, rfl⟩, Or.inl ⟨rfl, rfl⟩, by decide, by decide⟩,
    toggle_is_set_other (setTheme "dark" samplePage).page "dark" "light" "ar" "en"
      (Or.inr ⟨rfl, rfl⟩) (Or.inl ⟨rfl, rfl⟩) (by decide) (by decide)⟩

/-! ## Lemmas on failed writes and on consistency -/

/-- `setTheme` on a store that refuses the write raises, having done every other
write of a successful call. -/
theorem setTheme_failed_write (value : String) (p : Page) (hw : p.storage.writable = false) :
    (setTheme value p).raised = true ∧
      (setTheme value p).page =
        { (setTheme value (withWorkingStore p)).page with
          storage := p.storage, events := p.events } := by
  obtain ⟨cl, ct, lg, d, cs, bt, hd, tt, lt, ti, el, ⟨sth, sl, w⟩, ev, fc, fi, fr⟩ := p
  simp only at hw
  subst hw
  cases tt with
  | none => simp [setTheme, withWorkingStore, Outcome.page, Outcome.raised]
  | some t =>
    obtain ⟨icon, decor⟩ := t
    cases icon <;> simp [setTheme, withWorkingStore, Outcome.page, Outcome.raised]

/-- `setLanguage` on a store that refuses the write raises, having done every
other write of a successful call. -/
theorem setLanguage_failed_write (value : String) (p : Page) (hw : p.storage.writable = false) :
    (setLanguage value p).raised = true ∧
      (setLanguage value p).page =
        { (setLanguage value (withWorkingStore p)).page with
          storage := p.storage, events := p.events } := by
  obtain ⟨cl, ct, lg, d, cs, bt, hd, tt, lt, ti, el, ⟨sth, sl, w⟩, ev, fc, fi, fr⟩ := p
  simp only at hw
  subst hw
  cases lt with
  | none => simp [setLanguage, withWorkingStore, Outcome.page, Outcome.raised]
  | some t => simp [setLanguage, withWorkingStore, Outcome.page, Outcome.raised]

/-- On a ready and consistent page a preference call returns and leaves a ready
and consistent page. -/
theorem ready_run (c : PrefCall) (p : Page) (hr : ready p = true) (hc : Consistent p) :
    (c.run p).raised = false ∧ ready (c.run p).page = true ∧ Consistent (c.run p).page := by
  obtain ⟨cl, ct, lg, d, cs, bt, hd, tt, lt, ti, el, ⟨sth, sl, w⟩, ev, fc, fi, fr⟩ := p
  unfold Consistent at *
  cases tt with
  | none => simp [ready] at hr
  | some t =>
    obtain ⟨icon, decor⟩ := t
    cases icon with
    | none => simp [ready] at hr
    | some ic =>
      cases lt with
      | none => simp [ready] at hr
      | some l =>
        cases w with
        | false => simp [ready] at hr
        | true =>
          simp only at hc
          obtain ⟨h1, h2, h3, h4⟩ := hc
          cases c <;>
            simp [PrefCall.run, setTheme, setLanguage, toggleTheme, toggleLanguage, Outcome.page,
              Outcome.raised, ready, h3, h4, h1, h2]

/-- Preference calls keep a page ready and consistent. -/
theorem ready_runCalls (calls : List PrefCall) (p : Page) (hr : ready p = true)
    (hc : Consistent p) :
    ready (runCalls calls p) = true ∧ Consistent (runCalls calls p) := by
  induction calls generalizing p with
  | nil => exact ⟨hr, hc⟩
  | cons c t ih =>
    obtain ⟨-, h2, h3⟩ := ready_run c p hr hc
    exact ih _ h2 h3

/-- A construction that returns leaves a ready and consistent page. -/
theorem construct_ready (p : Page) (h : (construct p).raised = false) :
    ready (construct p).page = true ∧ Consistent (construct p).page := by
  obtain ⟨cl, ct, lg, d, cs, bt, hd, tt, lt, ti, el, ⟨sth, sl, w⟩, ev, fc, fi, fr⟩ := p
  unfold Consistent
  cases tt with
  | none => simp [construct, init, initializeTheme, setTheme, Outcome.raised] at h
  | some t =>
    obtain ⟨icon, decor⟩ := t
    cases icon with
    | none => simp [construct, init, initializeTheme, setTheme, Outcome.raised] at h
    | some ic =>
      cases w with
      | false => simp [construct, init, initializeTheme, setTheme, Outcome.raised] at h
      | true =>
        cases lt with
        | none =>
          simp [construct, init, initializeTheme, initializeLanguage, setTheme, setLanguage,
            Outcome.raised] at h
        | some l =>
          simp [construct, init, initializeTheme, initializeLanguage, setTheme, setLanguage,
            bindEvents, initializeFAQ, Outcome.page, ready]

/-- On a ready page each setter returns, stores its argument and emits one
notification carrying it, and each toggle emits one notification carrying the
value it set. -/
theorem ready_writes (theme lang : String) (p : Page) (hr : ready p = true) :
    ((setTheme theme p).raised = false ∧
        (setTheme theme p).page.storage.theme = some theme ∧
        (setTheme theme p).page.events = p.events ++ [Notification.mk "themeChanged" theme]) ∧
      ((setLanguage lang p).raised = false ∧
        (setLanguage lang p).page.storage.language = some lang ∧
        (setLanguage lang p).page.events =
          p.events ++ [Notification.mk "languageChanged" lang]) ∧
      ((toggleTheme p).page.events =
          p.events ++ [Notification.mk "themeChanged" (toggleTheme p).page.currentTheme] ∧
        (toggleLanguage p).page.events =
          p.events ++ [Notification.mk "languageChanged" (toggleLanguage p).page.currentLang]) := by
  obtain ⟨cl, ct, lg, d, cs, bt, hd, tt, lt, ti, el, ⟨sth, sl, w⟩, ev, fc, fi, fr⟩ := p
  cases tt with
  | none => simp [ready] at hr
  | some t =>
    obtain ⟨icon, decor⟩ := t
    cases icon with
    | none => simp [ready] at hr
    | some ic =>
      cases lt with
      | none => simp [ready] at hr
      | some l =>
        cases w with
        | false => simp [ready] at hr
        | true =>
          simp [setTheme, setLanguage, toggleTheme, toggleLanguage, Outcome.page, Outcome.raised]

/-! ## Claims on failed writes and on consistency -/

/-- Claim C11 fails as stated: on the sample page with a store whose `setItem`
raises, `setTheme('dark')` and `setLanguage('en')` raise, and so does the
construction of the `App`. -/
theorem failed_write_is_not_caught :
    failingStorePage.storage.writable = false ∧
      (setTheme "dark" failingStorePage).raised = true ∧
      (setLanguage "en" failingStorePage).raised = true ∧
      (construct failingStorePage).raised = true := by
  decide

/-- Claim C11, amended: when `localStorage.setItem` raises, `setTheme` and
`setLanguage` raise as well; the page they leave is the page of the same call
with a working store, except that the store and the notifications are as they
were before the call: the in-memory value and every document attribute and
text are updated, nothing is stored and no notification is emitted. -/
theorem failed_write_raises (value : String) (p : Page) (hw : p.storage.writable = false) :
    ((setTheme value p).raised = true ∧
        (setTheme value p).page =
          { (setTheme value (withWorkingStore p)).page with
            storage := p.storage, events := p.events }) ∧
      ((setLanguage value p).raised = true ∧
        (setLanguage value p).page =
          { (setLanguage value (withWorkingStore p)).page with
            storage := p.storage, events := p.events }) :=
  ⟨setTheme_failed_write value p hw, setLanguage_failed_write value p hw⟩

/-- Claim C11, amended, on the sample page with a failing store and the value
`'dark'`. -/
theorem failed_write_raises_witness :
    failingStorePage.storage.writable = false ∧
      (((setTheme "dark" failingStorePage).raised = true ∧
        (setTheme "dark" failingStorePage).page =
          { (setTheme "dark" (withWorkingStore failingStorePage)).page with
            storage := failingStorePage.storage, events := failingStorePage.events }) ∧
      ((setLanguage "dark" failingStorePage).raised = true ∧
        (setLanguage "dark" failingStorePage).page =
          { (setLanguage "dark" (withWorkingStore failingStorePage)).page with
            storage := failingStorePage.storage, events := failingStorePage.events })) :=
  ⟨rfl, failed_write_raises "dark" failingStorePage rfl⟩

/-- Claim C13: when the construction of the `App` returns (both toggles exist
and the store accepts writes), then after it and after any further sequence of
`setTheme`, `setLanguage`, `toggleTheme` and `toggleLanguage` calls the stored
theme, `currentTheme` and the root `data-color-scheme` agree, and the stored
language, `currentLang` and the document language agree; every further call
returns, each setter stores its argument and appends exactly one notification
carrying it, and each toggle appends exactly one notification carrying the
value it set. -/
theorem persisted_consistency (p : Page) (calls : List PrefCall) (c : PrefCall)
    (theme lang : String) (hinit : (construct p).raised = false) :
    Consistent (runCalls calls (construct p).page) ∧
      (c.run (runCalls calls (construct p).page)).raised = false ∧
      ((setTheme theme (runCalls calls (construct p).page)).page.storage.theme = some theme ∧
        (setTheme theme (runCalls calls (construct p).page)).page.events =
          (runCalls calls (construct p).page).events ++ [Notification.mk "themeChanged" theme]) ∧
      ((setLanguage lang (runCalls calls (construct p).page)).page.storage.language = some lang ∧
        (setLanguage lang (runCalls calls (construct p).page)).page.events =
          (runCalls calls (construct p).page).events ++
            [Notification.mk "languageChanged" lang]) ∧
      ((toggleTheme (runCalls calls (construct p).page)).page.events =
          (runCalls calls (construct p).page).events ++
            [Notification.mk "themeChanged"
              (toggleTheme (runCalls calls (construct p).page)).page.currentTheme] ∧
        (toggleLanguage (runCalls calls (construct p).page)).page.events =
          (runCalls calls (construct p).page).events ++
            [Notification.mk "languageChanged"
              (toggleLanguage (runCalls calls (construct p).page)).page.currentLang]) := by
  obtain ⟨hr0, hc0⟩ := construct_ready p hinit
  obtain ⟨hr, hc⟩ := ready_runCalls calls _ hr0 hc0
  obtain ⟨⟨-, h1, h2⟩, ⟨-, h3, h4⟩, h5⟩ := ready_writes theme lang _ hr
  exact ⟨hc, (ready_run c _ hr hc).1, ⟨h1, h2⟩, ⟨h3, h4⟩, h5⟩

/-- Claim C13 on the sample page, after `toggleTheme()` and
`setLanguage('en')`. -/
theorem persisted_consistency_witness :
    (construct samplePage).raised = false ∧
      (Consistent (runCalls sampleCalls (construct samplePage).page) ∧
      (PrefCall.toggleLanguage.run (runCalls sampleCalls (construct samplePage).page)).raised = false ∧
      ((setTheme "dark" (runCalls sampleCalls (construct samplePage).page)).page.storage.theme = some "dark" ∧
        (setTheme "dark" (runCalls sampleCalls (construct samplePage).page)).page.events =
          (runCalls sampleCalls (construct samplePage).page).events ++ [Notification.mk "themeChanged" "dark"]) ∧
      ((setLanguage "ar" (runCalls sampleCalls (construct samplePage).page)).page.storage.language = some "ar" ∧
        (setLanguage "ar" (runCalls sampleCalls (construct samplePage).page)).page.events =
          (runCalls sampleCalls (construct samplePage).page).events ++
            [Notification.mk "languageChanged" "ar"]) ∧
      ((toggleTheme (runCalls sampleCalls (construct samplePage).page)).page.events =
          (runCalls sampleCalls (construct samplePage).page).events ++
            [Notification.mk "themeChanged"
              (toggleTheme (runCalls sampleCalls (construct samplePage).page)).page.currentTheme] ∧
        (toggleLanguage (runCalls sampleCalls (construct samplePage).page)).page.events =
          (runCalls sampleCalls (construct samplePage).page).events ++
            [Notification.mk "languageChanged"
              (toggleLanguage (runCalls sampleCalls (construct samplePage).page)).page.currentLang])) :=
  ⟨by decide,
    persisted_consistency samplePage sampleCalls PrefCall.toggleLanguage "dark" "ar"
      (by decide)⟩

/-! ## Lemmas on keyboard activation and listener counts -/

/-- A listener run leaves the keydown listeners of every question as they were. -/
theorem clickEffect_keydownHandlers (h : Handler) (b : Bool) (j : Nat) (it : FaqItem) :
    ((clickEffect h b j it).question.map fun q => q.keydownHandlers) =
      (it.question.map fun q => q.keydownHandlers) := by
  cases it with
  | mk a o t q ans =>
    cases q <;> cases ans <;>
      simp [clickEffect, rippleQuestion, setMaxHeight, setActive, closeOther] <;>
      (split_ifs <;> simp)

/-- One listener run leaves the keydown listeners as they were. -/
theorem clickHandler_keyListeners (h : Handler) (p : Page) :
    keyListeners (clickHandler h p) = keyListeners p := by
  cases hw : wired p h.item
  · rw [clickHandler_unwired h p hw]
  · unfold wired at hw
    cases hitem : p.faqItems[h.item]? with
    | none => simp [hitem] at hw
    | some item =>
      rw [hitem] at hw
      cases hq : item.question with
      | none => simp [hq] at hw
      | some q =>
        cases ha : item.answer with
        | none => simp [ha] at hw
        | some a =>
          apply List.ext_getElem?
          intro j
          unfold keyListeners
          rw [List.getElem?_map, List.getElem?_map, clickHandler_getElem? h p item q a hitem hq ha j]
          cases p.faqItems[j]? with
          | none => rfl
          | some it =>
            simp only [Option.map_some']
            rw [clickEffect_keydownHandlers]

/-- Any number of listener runs leave the keydown listeners as they were. -/
theorem foldl_clickHandler_keyListeners (hs : List Handler) (p : Page) :
    keyListeners (hs.foldl (fun page h => clickHandler h page) p) = keyListeners p := by
  induction hs generalizing p with
  | nil => rfl
  | cons h t ih => rw [List.foldl_cons, ih, clickHandler_keyListeners]

/-- A click leaves the keydown listeners as they were. -/
theorem click_keyListeners (i : Nat) (p : Page) : keyListeners (click i p) = keyListeners p := by
  unfold click
  split
  · rfl
  · split
    · rfl
    · exact foldl_clickHandler_keyListeners _ p

/-- An animation frame leaves the keydown listeners as they were. -/
theorem animationFrame_keyListeners (p : Page) :
    keyListeners (animationFrame p) = keyListeners p := by
  unfold animationFrame
  split
  · rfl
  · apply List.ext_getElem?
    intro j
    simp only [keyListeners, List.getElem?_map, List.getElem?_modify]
    cases p.faqItems[j]? with
    | none => rfl
    | some it =>
      cases it with
      | mk a o t q ans =>
        cases ans <;> simp [setMaxHeight]
        split_ifs <;> simp

/-- `Paired` read off the two skeletons. -/
theorem paired_iff (p : Page) :
    Paired p ↔ ∀ (i : Nat) (hs : List Handler) (b : Bool) (ks : List Nat),
      (skeleton p)[i]? = some (some hs, b) → (keyListeners p)[i]? = some (some ks) →
        ks = List.replicate hs.length i := by
  unfold Paired skeleton keyListeners
  constructor
  · intro h i hs b ks h1 h2
    rw [List.getElem?_map] at h1 h2
    cases hitem : p.faqItems[i]? with
    | none => simp [hitem] at h1
    | some item =>
      simp only [hitem, Option.map_some', Option.some.injEq, Prod.mk.injEq] at h1 h2
      cases hq : item.question with
      | none => simp [hq] at h2
      | some q =>
        simp only [hq, Option.map_some', Option.some.injEq] at h1 h2
        rw [← h1.1, ← h2]
        exact h i item q hitem hq
  · intro h i item q hitem hq
    exact h i q.clickHandlers item.answer.isSome q.keydownHandlers
      (by simp [List.getElem?_map, hitem, hq]) (by simp [List.getElem?_map, hitem, hq])

/-- `Paired` depends on the listeners only. -/
theorem paired_of_eq {p p2 : Page} (hs : skeleton p2 = skeleton p)
    (hk : keyListeners p2 = keyListeners p) (h : Paired p) : Paired p2 := by
  rw [paired_iff] at *
  rw [hs, hk]
  exact h

/-- A page without listeners is `Paired`. -/
theorem fresh_paired (p : Page) (hf : fresh p = true) : Paired p := by
  intro i item q hitem hq
  simp only [fresh, Bool.and_eq_true, List.all_eq_true] at hf
  have := hf.2 item (List.getElem?_mem hitem)
  simp only [hq, Bool.and_eq_true, List.isEmpty_iff] at this
  rw [this.1, this.2]
  rfl

/-- `initializeFAQ` registers the two kinds of listener together. -/
theorem initializeFAQ_paired (p : Page) (h : Paired p) : Paired (initializeFAQ p) := by
  intro i item q hitem hq
  simp only [initializeFAQ, List.getElem?_mapIdx] at hitem
  cases hi : p.faqItems[i]? with
  | none => simp [hi] at hitem
  | some it =>
    simp only [hi, Option.map_some', Option.some.injEq] at hitem
    subst hitem
    obtain ⟨a, o, t, q0, ans⟩ := it
    cases q0 with
    | none => cases ans <;> simp [wire] at hq
    | some q0 =>
      have h0 := h i _ q0 hi rfl
      cases ans with
      | none =>
        simp only [wire, Option.some.injEq] at hq
        subst hq
        exact h0
      | some ans =>
        simp only [wire, Option.some.injEq] at hq
        subst hq
        simp only [List.length_append, List.length_cons, List.length_nil, h0]
        rw [List.replicate_succ']

/-- Appending the new item of `addFAQItem` keeps a page `Paired`. -/
theorem append_new_paired (measured : Nat) (p : Page) (extra : List Element) (h : Paired p) :
    Paired { p with faqItems := p.faqItems ++ [newFaqItem measured],
                    elements := p.elements ++ extra } := by
  intro i item q hitem hq
  simp only at hitem
  by_cases hlt : i < p.faqItems.length
  · rw [List.getElem?_append_left hlt] at hitem
    exact h i item q hitem hq
  · rw [List.getElem?_append_right (by omega)] at hitem
    cases hk : i - p.faqItems.length with
    | zero =>
      simp only [hk, List.getElem?_cons_zero, Option.some.injEq] at hitem
      subst hitem
      simp only [newFaqItem, Option.some.injEq] at hq
      subst hq
      rfl
    | succ k => simp [hk] at hitem

/-- `addFAQItem` keeps a page `Paired`. -/
theorem addFAQItem_paired (qAr qEn aAr aEn : String) (measured : Nat) (p : Page)
    (h : Paired p) : Paired (addFAQItem qAr qEn aAr aEn measured p) := by
  unfold addFAQItem
  apply initializeFAQ_paired
  split
  · exact append_new_paired measured p _ h
  · exact h

/-- `Paired` holds on every reachable page. -/
theorem Reachable.paired {p : Page} (r : Reachable p) : Paired p := by
  induction r with
  | load p hf => exact initializeFAQ_paired p (fresh_paired p hf)
  | click i _ ih => exact paired_of_eq (click_skeleton i _) (click_keyListeners i _) ih
  | add qAr qEn aAr aEn measured _ ih => exact addFAQItem_paired _ _ _ _ _ _ ih
  | frame _ ih =>
    exact paired_of_eq (animationFrame_skeleton _) (animationFrame_keyListeners _) ih

/-- One run of a listener on a wired item flips the `active` class of that item. -/
theorem clickHandler_itemActive (h : Handler) (p : Page) (hw : wired p h.item = true) :
    itemActive (clickHandler h p) h.item = !itemActive p h.item := by
  unfold wired at hw
  unfold itemActive
  cases hitem : p.faqItems[h.item]? with
  | none => simp [hitem] at hw
  | some item =>
    rw [hitem] at hw
    cases hq : item.question with
    | none => simp [hq] at hw
    | some q =>
      cases ha : item.answer with
      | none => simp [ha] at hw
      | some a =>
        rw [clickHandler_getElem? h p item q a hitem hq ha h.item, hitem]
        simp [clickEffect, rippleQuestion, setMaxHeight, setActive]

/-- Listener runs on one wired item flip its `active` class once each. -/
theorem foldl_clickHandler_itemActive (i : Nat) (hs : List Handler) (p : Page)
    (hown : ∀ h ∈ hs, h.item = i) (hw : wired p i = true) :
    itemActive (hs.foldl (fun page h => clickHandler h page) p) i =
      xor (itemActive p i) (decide (hs.length % 2 = 1)) := by
  induction hs generalizing p with
  | nil => simp
  | cons h t ih =>
    have hi : h.item = i := hown h (List.mem_cons_self h t)
    have hw2 : wired (clickHandler h p) i = true := by
      rw [wired_of_skeleton_eq (clickHandler_skeleton h p)]; exact hw
    rw [List.foldl_cons, ih _ (fun x hx => hown x (List.mem_cons_of_mem h hx)) hw2]
    have := clickHandler_itemActive h p (by rw [hi]; exact hw)
    rw [hi] at this
    rw [this, List.length_cons]
    cases itemActive p i <;> rcases Nat.mod_two_eq_zero_or_one t.length with h0 | h0 <;>
      simp [Nat.add_mod, h0]

/-- Pages with the same skeleton have the same listener counts. -/
theorem listenerCount_of_skeleton_eq {p p2 : Page} (h : skeleton p2 = skeleton p) (i : Nat) :
    listenerCount p2 i = listenerCount p i := by
  have h1 : ∀ q : Page, listenerCount q i =
      match (skeleton q)[i]? with
      | some (some hs, _) => hs.length
      | _ => 0 := by
    intro q
    unfold listenerCount skeleton
    rw [List.getElem?_map]
    cases q.faqItems[i]? with
    | none => rfl
    | some item => cases hq : item.question <;> simp [hq]
  rw [h1 p2, h1 p, h]

/-- One click on a wired item of a reachable page flips its `active` class
once for each listener registered on its question. -/
theorem click_itemActive {p : Page} (r : Reachable p) (i : Nat) (hw : wired p i = true) :
    itemActive (click i p) i =
      xor (itemActive p i) (decide (listenerCount p i % 2 = 1)) := by
  unfold click listenerCount
  cases hitem : p.faqItems[i]? with
  | none => simp [wired, hitem] at hw
  | some item =>
    cases hq : item.question with
    | none => simp [wired, hitem, hq] at hw
    | some q =>
      simp only [hq]
      have hown := r.wiring.own i q.clickHandlers item.answer.isSome
        (by simp [skeleton, List.getElem?_map, hitem, hq])
      exact foldl_clickHandler_itemActive i q.clickHandlers p hown hw

/-- `itemActive` read off the flags. -/
theorem itemActive_eq_flag (p : Page) (i : Nat) :
    itemActive p i = ((activeFlags p)[i]?).getD false := by
  unfold itemActive activeFlags
  rw [List.getElem?_map]
  cases p.faqItems[i]? <;> rfl

/-- The flag of item `i` in `flagsOnly n i b` is `b`. -/
theorem flagsOnly_getElem? (n i : Nat) (b : Bool) (hi : i < n) :
    (flagsOnly n i b)[i]? = some b := by
  unfold flagsOnly
  rw [List.getElem?_map, List.getElem?_range hi]
  simp

/-- A wired item exists. -/
theorem wired_lt {p : Page} {i : Nat} (hw : wired p i = true) : i < p.faqItems.length := by
  unfold wired at hw
  cases hitem : p.faqItems[i]? with
  | none => simp [hitem] at hw
  | some item => exact (List.getElem?_eq_some.1 hitem).1

/-- After one click on a wired item of a reachable page no other item is
active. -/
theorem click_activeFlags {p : Page} (r : Reachable p) (i : Nat) (hw : wired p i = true) :
    activeFlags (click i p) = flagsOnly p.faqItems.length i (itemActive (click i p) i) := by
  have hlen : (click i p).faqItems.length = p.faqItems.length :=
    length_of_skeleton_eq (click_skeleton i p)
  apply List.ext_getElem?
  intro j
  unfold flagsOnly activeFlags
  rw [List.getElem?_map, List.getElem?_map]
  by_cases hj : j < p.faqItems.length
  · rw [List.getElem?_range hj]
    cases hitem : (click i p).faqItems[j]? with
    | none =>
      have := List.getElem?_eq_none_iff.1 hitem
      omega
    | some item =>
      simp only [Option.map_some', Option.some.injEq]
      by_cases hji : j = i
      · subst hji
        simp [itemActive, hitem]
      · simp [hji, click_others_closed r i hw j item hitem hji]
  · have h1 : (click i p).faqItems[j]? = none := List.getElem?_eq_none_iff.2 (by omega)
    have h2 : (List.range p.faqItems.length)[j]? = none :=
      List.getElem?_eq_none_iff.2 (by simp; omega)
    rw [h1, h2]
    rfl

/-- Clicks in a row keep a page reachable and its skeleton as it was. -/
theorem iterate_click_invariants {p : Page} (r : Reachable p) (i m : Nat) :
    Reachable ((click i)^[m] p) ∧ skeleton ((click i)^[m] p) = skeleton p := by
  induction m with
  | zero => exact ⟨r, rfl⟩
  | succ k ih =>
    rw [Function.iterate_succ_apply']
    exact ⟨Reachable.click i ih.1, (click_skeleton i _).trans ih.2⟩

/-- The flags after `m + 1` clicks in a row on a wired item of a reachable
page. -/
theorem iterate_click_activeFlags {p : Page} (r : Reachable p) (i : Nat)
    (hw : wired p i = true) (m : Nat) :
    activeFlags ((click i)^[m + 1] p) =
      flagsOnly p.faqItems.length i
        (xor (itemActive p i)
          (decide (listenerCount p i % 2 = 1) && decide ((m + 1) % 2 = 1))) := by
  induction m with
  | zero =>
    rw [Function.iterate_one, click_activeFlags r i hw, click_itemActive r i hw]
    simp
  | succ k ih =>
    obtain ⟨rq, hsk⟩ := iterate_click_invariants r i (k + 1)
    have hwq : wired ((click i)^[k + 1] p) i = true := by
      rw [wired_of_skeleton_eq hsk]; exact hw
    rw [Function.iterate_succ_apply', click_activeFlags rq i hwq, click_itemActive rq i hwq,
      length_of_skeleton_eq hsk, listenerCount_of_skeleton_eq hsk, itemActive_eq_flag _ i, ih,
      flagsOnly_getElem? _ _ _ (wired_lt hw)]
    congr 1
    cases itemActive p i <;> cases decide (listenerCount p i % 2 = 1) <;>
      rcases Nat.mod_two_eq_zero_or_one k with h0 | h0 <;>
      simp [Nat.add_mod, h0]

/-- Keydown listeners that all hold item `i` amount, on an activation key, to as
many clicks on `i`. -/
theorem foldl_keydownHandler_replicate (key : String) (hk : key = "Enter" ∨ key = " ")
    (i n : Nat) (p : Page) :
    (List.replicate n i).foldl (fun page k => keydownHandler key k page) p =
      (click i)^[n] p := by
  induction n generalizing p with
  | zero => rfl
  | succ k ih =>
    rw [List.replicate_succ, List.foldl_cons, ih, Function.iterate_succ_apply]
    simp [keydownHandler, hk]

/-- On a key that is no activation key the keydown listeners do nothing. -/
theorem foldl_keydownHandler_other (key : String) (hk : ¬ (key = "Enter" ∨ key = " "))
    (ks : List Nat) (p : Page) :
    ks.foldl (fun page k => keydownHandler key k page) p = p := by
  induction ks with
  | nil => rfl
  | cons k t ih =>
    rw [List.foldl_cons]
    have : keydownHandler key k p = p := by simp only [keydownHandler, hk, if_false]
    rw [this]
    exact ih

/-- On a reachable page a keydown with an activation key is as many clicks as
the question has click listeners. -/
theorem keydown_eq_iterate {p : Page} (r : Reachable p) (key : String)
    (hk : key = "Enter" ∨ key = " ") (i : Nat) :
    keydown key i p = (click i)^[listenerCount p i] p := by
  unfold keydown listenerCount
  cases hitem : p.faqItems[i]? with
  | none => rfl
  | some item =>
    cases hq : item.question with
    | none => simp only [hq, Function.iterate_zero, id]
    | some q =>
      simp only [hq]
      rw [r.paired i item q hitem hq]
      exact foldl_keydownHandler_replicate key hk i _ p

/-- A wired item of a reachable page has a click listener. -/
theorem listenerCount_pos {p : Page} (r : Reachable p) (i : Nat) (hw : wired p i = true) :
    0 < listenerCount p i := by
  obtain ⟨hs, hsk⟩ := (wired_iff_skeleton p i).1 hw
  obtain ⟨front, hfront⟩ := (r.wiring i hs true hsk).2 rfl
  simp only [skeleton, List.getElem?_map] at hsk
  cases hitem : p.faqItems[i]? with
  | none => simp [hitem] at hsk
  | some item =>
    simp only [hitem, Option.map_some', Option.some.injEq, Prod.mk.injEq] at hsk
    cases hq : item.question with
    | none => simp [hq] at hsk
    | some q =>
      simp only [hq, Option.map_some', Option.some.injEq] at hsk
      simp only [listenerCount, hitem, hq, hsk.1, hfront, List.length_append, List.length_cons,
        List.length_nil]
      omega

/-- A keydown leaves a reachable page reachable. -/
theorem keydown_reachable {p : Page} (r : Reachable p) (key : String) (i : Nat) :
    Reachable (keydown key i p) := by
  by_cases hk : key = "Enter" ∨ key = " "
  · rw [keydown_eq_iterate r key hk i]
    exact (iterate_click_invariants r i _).1
  · unfold keydown
    split
    · exact r
    · split
      · exact r
      · rw [foldl_keydownHandler_other key hk]; exact r

/-- `initializeFAQ` keeps the wired items wired and wires no other. -/
theorem wired_initializeFAQ (p : Page) (i : Nat) :
    wired (initializeFAQ p) i = wired p i := by
  unfold wired initializeFAQ
  simp only [List.getElem?_mapIdx]
  cases p.faqItems[i]? with
  | none => rfl
  | some item =>
    obtain ⟨a, o, t, q, ans⟩ := item
    cases q <;> cases ans <;> rfl

/-- One run of `initializeFAQ` registers one more click listener on every
wired item. -/
theorem listenerCount_initializeFAQ (p : Page) (i : Nat) (hw : wired p i = true) :
    listenerCount (initializeFAQ p) i = listenerCount p i + 1 := by
  unfold wired at hw
  unfold listenerCount initializeFAQ
  simp only [List.getElem?_mapIdx]
  cases hitem : p.faqItems[i]? with
  | none => simp [hitem] at hw
  | some item =>
    rw [hitem] at hw
    obtain ⟨a, o, t, q, ans⟩ := item
    cases q with
    | none => simp at hw
    | some q =>
      cases ans with
      | none => simp at hw
      | some ans => simp [wire]

/-- `addFAQItem` adds one item when there is a container and none otherwise. -/
theorem addFAQItem_length (qAr qEn aAr aEn : String) (measured : Nat) (p : Page) :
    (addFAQItem qAr qEn aAr aEn measured p).faqItems.length =
      p.faqItems.length + (if p.faqContainer = true then 1 else 0) := by
  unfold addFAQItem
  cases p.faqContainer <;> simp [initializeFAQ]

/-- `addFAQItem` keeps the container. -/
theorem addFAQItem_faqContainer (qAr qEn aAr aEn : String) (measured : Nat) (p : Page) :
    (addFAQItem qAr qEn aAr aEn measured p).faqContainer = p.faqContainer := by
  unfold addFAQItem
  cases h : p.faqContainer <;> simp [initializeFAQ, h]

/-- `addFAQItem` keeps a wired item wired. -/
theorem addFAQItem_wired (qAr qEn aAr aEn : String) (measured : Nat) (p : Page) (i : Nat)
    (hw : wired p i = true) : wired (addFAQItem qAr qEn aAr aEn measured p) i = true := by
  unfold addFAQItem
  rw [wired_initializeFAQ]
  split
  · have hlt := wired_lt hw
    unfold wired at hw ⊢
    simp only
    rw [List.getElem?_append_left hlt]
    exact hw
  · exact hw

/-- An `addFAQItem` call registers one more click listener on every wired item
already present. -/
theorem listenerCount_addFAQItem (qAr qEn aAr aEn : String) (measured : Nat) (p : Page)
    (i : Nat) (hw : wired p i = true) :
    listenerCount (addFAQItem qAr qEn aAr aEn measured p) i = listenerCount p i + 1 := by
  unfold addFAQItem
  split
  · have hlt := wired_lt hw
    rw [listenerCount_initializeFAQ]
    · unfold listenerCount
      simp only
      rw [List.getElem?_append_left hlt]
    · unfold wired at hw ⊢
      simp only
      rw [List.getElem?_append_left hlt]
      exact hw
  · exact listenerCount_initializeFAQ p i hw

/-- The item an `addFAQItem` call appends is wired and has one click listener. -/
theorem listenerCount_addFAQItem_new (qAr qEn aAr aEn : String) (measured : Nat) (p : Page)
    (hc : p.faqContainer = true) :
    wired (addFAQItem qAr qEn aAr aEn measured p) p.faqItems.length = true ∧
      listenerCount (addFAQItem qAr qEn aAr aEn measured p) p.faqItems.length = 1 := by
  unfold addFAQItem
  rw [if_pos hc]
  have hw : wired { p with faqItems := p.faqItems ++ [newFaqItem measured],
                           elements := p.elements ++
                             [bilingual p.currentLang qAr qEn, bilingual p.currentLang aAr aEn] }
      p.faqItems.length = true := by
    simp [wired, newFaqItem]
  refine ⟨by rw [wired_initializeFAQ]; exact hw, ?_⟩
  rw [listenerCount_initializeFAQ _ _ hw]
  simp [listenerCount, newFaqItem]

/-- A page as served has no click listener. -/
theorem listenerCount_fresh (p : Page) (hf : fresh p = true) (i : Nat) :
    listenerCount p i = 0 := by
  unfold listenerCount
  simp only [fresh, Bool.and_eq_true, List.all_eq_true] at hf
  cases hitem : p.faqItems[i]? with
  | none => rfl
  | some item =>
    have := hf.2 item (List.getElem?_mem hitem)
    cases hq : item.question with
    | none => simp only [hq]
    | some q =>
      simp only [hq, Bool.and_eq_true, List.isEmpty_iff] at this
      simp [hq, this.1]

/-- Additions in a row: an item wired before them gains one click listener per
addition. -/
theorem foldl_addFAQItem_old (entries : List (Nat × Faq)) (heights : Nat → Nat) (p : Page)
    (i : Nat) (hw : wired p i = true) :
    wired (entries.foldl
        (fun page (entry : Nat × Faq) =>
          addFAQItem entry.2.questionAr entry.2.questionEn entry.2.answerAr entry.2.answerEn
            (heights entry.1) page) p) i = true ∧
      listenerCount (entries.foldl
        (fun page (entry : Nat × Faq) =>
          addFAQItem entry.2.questionAr entry.2.questionEn entry.2.answerAr entry.2.answerEn
            (heights entry.1) page) p) i = listenerCount p i + entries.length := by
  induction entries generalizing p with
  | nil => exact ⟨hw, rfl⟩
  | cons e t ih =>
    obtain ⟨h1, h2⟩ := ih _ (addFAQItem_wired _ _ _ _ _ p i hw)
    rw [List.foldl_cons]
    refine ⟨h1, ?_⟩
    rw [h2, listenerCount_addFAQItem _ _ _ _ _ p i hw, List.length_cons]
    omega

/-- Additions in a row into a container: the `j`-th added item ends with as
many click listeners as additions from its own on. -/
theorem foldl_addFAQItem_new (entries : List (Nat × Faq)) (heights : Nat → Nat) (p : Page)
    (hc : p.faqContainer = true) (j : Nat) (hj : j < entries.length) :
    wired (entries.foldl
        (fun page (entry : Nat × Faq) =>
          addFAQItem entry.2.questionAr entry.2.questionEn entry.2.answerAr entry.2.answerEn
            (heights entry.1) page) p) (p.faqItems.length + j) = true ∧
      listenerCount (entries.foldl
        (fun page (entry : Nat × Faq) =>
          addFAQItem entry.2.questionAr entry.2.questionEn entry.2.answerAr entry.2.answerEn
            (heights entry.1) page) p) (p.faqItems.length + j) = entries.length - j := by
  induction entries generalizing p j with
  | nil => simp at hj
  | cons e t ih =>
    rw [List.foldl_cons]
    obtain ⟨hnw, hnc⟩ := listenerCount_addFAQItem_new e.2.questionAr e.2.questionEn
      e.2.answerAr e.2.answerEn (heights e.1) p hc
    cases j with
    | zero =>
      obtain ⟨h1, h2⟩ := foldl_addFAQItem_old t heights _ _ hnw
      refine ⟨h1, ?_⟩
      rw [Nat.add_zero, h2, hnc, List.length_cons]
      omega
    | succ k =>
      have hc2 := (addFAQItem_faqContainer e.2.questionAr e.2.questionEn e.2.answerAr
        e.2.answerEn (heights e.1) p).trans hc
      have hlen := addFAQItem_length e.2.questionAr e.2.questionEn e.2.answerAr
        e.2.answerEn (heights e.1) p
      simp only [hc, if_true] at hlen
      have := ih _ hc2 k (by simpa using hj)
      rw [hlen] at this
      rw [show p.faqItems.length + (k + 1) = p.faqItems.length + 1 + k by omega,
        List.length_cons]
      refine ⟨this.1, ?_⟩
      rw [this.2]
      omega

/-- The `additionalFAQs` table has five entries. -/
theorem additionalFAQs_enum_length : additionalFAQs.enum.length = 5 := by
  rfl

/-- Running every pending callback: the one scheduled last writes last. -/
theorem animationFrame_last (fs : List Frame) (f : Frame) (p : Page)
    (hfr : p.frames = fs ++ [f]) (hw : wired p f.item = true) :
    maxHeightOf (animationFrame^[fs.length + 1] p) f.item =
        some (toString f.height ++ "px") ∧
      (animationFrame^[fs.length + 1] p).frames = [] := by
  induction fs generalizing p with
  | nil =>
    simp only [List.nil_append] at hfr
    simp only [List.length_nil, Nat.zero_add, Function.iterate_one]
    unfold wired at hw
    unfold maxHeightOf animationFrame
    simp only [hfr, List.getElem?_modify]
    cases hitem : p.faqItems[f.item]? with
    | none => simp [hitem] at hw
    | some item =>
      rw [hitem] at hw
      cases ha : item.answer with
      | none => simp [ha] at hw
      | some a => simp [setMaxHeight, ha]
  | cons g t ih =>
    rw [List.length_cons, Function.iterate_succ_apply]
    have hstep : (animationFrame p).frames = t ++ [f] := by
      unfold animationFrame
      simp [hfr]
    exact ih _ hstep (by rw [wired_of_skeleton_eq (animationFrame_skeleton p)]; exact hw)

/-- With one listener on the question, the click is that listener's run. -/
theorem click_single (p : Page) (i : Nat) (item : FaqItem) (q : Question) (h : Handler)
    (hitem : p.faqItems[i]? = some item) (hq : item.question = some q)
    (hone : q.clickHandlers = [h]) : click i p = clickHandler h p := by
  simp [click, hitem, hq, hone]

/-- The opening run of a listener, in its parts: the others are closed, the
own item is opened for measuring, then collapsed again, and the callback is
scheduled with the height measured in between. -/
theorem clickHandler_opening (h : Handler) (p : Page) (item : FaqItem) (q : Question)
    (a : Answer) (hitem : p.faqItems[h.item]? = some item) (hq : item.question = some q)
    (ha : item.answer = some a) (hclosed : item.active = false) :
    clickHandler h p =
      { beginOpening h.item (closeOthers h p) with
        faqItems := ((beginOpening h.item (closeOthers h p)).faqItems.modify
          (setMaxHeight "0px") h.item).modify rippleQuestion h.item,
        frames := p.frames ++
          [Frame.mk h.item (measure (beginOpening h.item (closeOthers h p)).faqItems h.item)] } := by
  simp [clickHandler, hitem, hq, ha, hclosed, beginOpening, closeOthers]

/-- The first part of a listener run, item by item. -/
theorem closeOthers_getElem? (h : Handler) (p : Page) (j : Nat) :
    (closeOthers h p).faqItems[j]? =
      (p.faqItems[j]?).map fun it =>
        if j < h.snapshot ∧ j ≠ h.item then closeOther it else it := by
  simp [closeOthers, List.getElem?_mapIdx]

/-! ## Claims on keyboard activation, re-initialisation and animation -/

/-- Claim C12: on every reachable page and for every item, a keydown with
`Enter` or a space on the question leaves the same items active as one click
on it, a keydown with any other key leaves the page as it was, and the page
after a keydown is reachable again. -/
theorem keydown_matches_click (p : Page) (r : Reachable p) (i : Nat) (key other : String)
    (hk : key = "Enter" ∨ key = " ") (ho : other ≠ "Enter" ∧ other ≠ " ") :
    activeFlags (keydown key i p) = activeFlags (click i p) ∧
      keydown other i p = p ∧
      Reachable (keydown key i p) := by
  refine ⟨?_, ?_, keydown_reachable r key i⟩
  · rw [keydown_eq_iterate r key hk i]
    cases hw : wired p i
    · rw [Function.iterate_fixed (click_unwired r i hw), click_unwired r i hw]
    · obtain ⟨m, hm⟩ := Nat.exists_eq_succ_of_ne_zero (Nat.pos_iff_ne_zero.1 (listenerCount_pos r i hw))
      have h1 := iterate_click_activeFlags r i hw m
      have h0 := iterate_click_activeFlags r i hw 0
      rw [Function.iterate_one] at h0
      rw [hm, h1, h0, hm]
      congr 2
      cases decide ((m + 1) % 2 = 1) <;> simp
  · unfold keydown
    split
    · rfl
    · split
      · rfl
      · exact foldl_keydownHandler_other other (by rintro (h | h) <;> simp [h] at ho) _ p

/-- Claim C12 on the sample page after start-up, for the first added item, with
the keys `Enter` and `Tab`. -/
theorem keydown_matches_click_witness :
    (Reachable startedPage ∧ ("Enter" = "Enter" ∨ "Enter" = " ") ∧
        ("Tab" ≠ "Enter" ∧ "Tab" ≠ " ")) ∧
      (activeFlags (keydown "Enter" 3 startedPage) = activeFlags (click 3 startedPage) ∧
      keydown "Tab" 3 startedPage = startedPage ∧
      Reachable (keydown "Enter" 3 startedPage)) :=
  have r : Reachable startedPage :=
    addAdditionalFAQs_reachable _ _ (Reachable.load samplePage (by decide))
  ⟨⟨r, Or.inl rfl, by decide⟩,
    keydown_matches_click startedPage r 3 "Enter" "Tab" (Or.inl rfl) (by decide)⟩

/-- Claim C14, evaluated where the code departs from it.  On the sample page
after page load, a click on item 0 and the animation frame of that click, item
0 is active with `max-height` at its measured height, `40px`; after one
`addFAQItem` it is still active and its `max-height` is `0px`. -/
theorem addFAQItem_collapses_open_item :
    Reachable openedPage ∧
      (itemActive openedPage 0 = true ∧ measure openedPage.faqItems 0 = 40 ∧
        maxHeightOf openedPage 0 = some "40px") ∧
      (itemActive (addFAQItem "س" "Q" "ج" "A" 50 openedPage) 0 = true ∧
        maxHeightOf (addFAQItem "س" "Q" "ج" "A" 50 openedPage) 0 = some "0px") := by
  refine ⟨Reachable.frame (Reachable.click 0 (Reachable.load samplePage (by decide))),
    by decide, by decide⟩

/-- Claim C15, evaluated where the code departs from it.  On the sample page
after page load, the closed item 0 is clicked twice before the animation frame
of the first click has run: after the second click it is not active, its
`max-height` is `0px` and the callback of the first click is still pending;
once that callback has run no callback is pending, the item is not active and
its `max-height` is `40px`.  After the start-up sequence of the program a
single click on item 0 ends the same way. -/
theorem stale_frame_reopens_closed_item :
    (Reachable (animationFrame (click 0 (click 0 (initializeFAQ samplePage)))) ∧
        (itemActive (initializeFAQ samplePage) 0 = false ∧
          itemActive (click 0 (initializeFAQ samplePage)) 0 = true ∧
          (click 0 (initializeFAQ samplePage)).frames = [Frame.mk 0 40]) ∧
        (itemActive (click 0 (click 0 (initializeFAQ samplePage))) 0 = false ∧
          maxHeightOf (click 0 (click 0 (initializeFAQ samplePage))) 0 = some "0px" ∧
          (click 0 (click 0 (initializeFAQ samplePage))).frames = [Frame.mk 0 40]) ∧
        ((animationFrame (click 0 (click 0 (initializeFAQ samplePage)))).frames = [] ∧
          itemActive (animationFrame (click 0 (click 0 (initializeFAQ samplePage)))) 0 = false ∧
          maxHeightOf (animationFrame (click 0 (click 0 (initializeFAQ samplePage)))) 0 =
            some "40px")) ∧
      (Reachable (animationFrame (animationFrame (animationFrame (click 0 startedPage)))) ∧
        (animationFrame (animationFrame (animationFrame (click 0 startedPage)))).frames = [] ∧
        itemActive (animationFrame (animationFrame (animationFrame (click 0 startedPage)))) 0 =
          false ∧
        maxHeightOf (animationFrame (animationFrame (animationFrame (click 0 startedPage)))) 0 =
          some "40px") := by
  refine ⟨⟨Reachable.frame (Reachable.click 0 (Reachable.click 0
    (Reachable.load samplePage (by decide)))), by decide, by decide, by decide⟩,
    ⟨?_, by decide, by decide, by decide⟩⟩
  exact Reachable.frame (Reachable.frame (Reachable.frame (Reachable.click 0
    (addAdditionalFAQs_reachable _ _ (Reachable.load samplePage (by decide))))))

/-- Claim C16: a click on a non-active item whose question has one click
listener, which captured every item.  The click is that listener's run in its
parts: first every other item is closed (class removed, `max-height` `0px`)
while the own item is still as it was, then the own item is made active with
`max-height` `none` and its `scrollHeight` is read, then `max-height` is set to
`0px` again and a callback is scheduled with the height just read.  At the end
of the click the item is active with `max-height` `0px` and every other item is
closed; once the pending callbacks have run, the last being this one, the
`max-height` of the answer is that height followed by `px`. -/
theorem measure_then_animate (p : Page) (i : Nat) (item : FaqItem) (q : Question) (a : Answer)
    (hitem : p.faqItems[i]? = some item) (hq : item.question = some q)
    (ha : item.answer = some a)
    (hone : q.clickHandlers = [Handler.mk p.faqItems.length i])
    (hclosed : item.active = false) :
    (click i p =
        { beginOpening i (closeOthers (Handler.mk p.faqItems.length i) p) with
          faqItems :=
            ((beginOpening i (closeOthers (Handler.mk p.faqItems.length i) p)).faqItems.modify
              (setMaxHeight "0px") i).modify rippleQuestion i,
          frames := p.frames ++
            [Frame.mk i
              (measure (beginOpening i (closeOthers (Handler.mk p.faqItems.length i) p)).faqItems
                i)] }) ∧
      ((∀ (j : Nat) (other : FaqItem),
          (closeOthers (Handler.mk p.faqItems.length i) p).faqItems[j]? = some other → j ≠ i →
            other.active = false ∧ ∀ b, other.answer = some b → b.maxHeight = "0px") ∧
        (closeOthers (Handler.mk p.faqItems.length i) p).faqItems[i]? = some item) ∧
      (itemActive (beginOpening i (closeOthers (Handler.mk p.faqItems.length i) p)) i = true ∧
        maxHeightOf (beginOpening i (closeOthers (Handler.mk p.faqItems.length i) p)) i =
          some "none" ∧
        measure (beginOpening i (closeOthers (Handler.mk p.faqItems.length i) p)).faqItems i =
          a.scrollHeight) ∧
      (itemActive (click i p) i = true ∧
        maxHeightOf (click i p) i = some "0px" ∧
        (click i p).frames = p.frames ++ [Frame.mk i a.scrollHeight] ∧
        ∀ (j : Nat) (other : FaqItem), (click i p).faqItems[j]? = some other → j ≠ i →
          other.active = false ∧ ∀ b, other.answer = some b → b.maxHeight = "0px") ∧
      maxHeightOf (animationFrame^[p.frames.length + 1] (click i p)) i =
        some (toString a.scrollHeight ++ "px") := by
  have hlt : i < p.faqItems.length := (List.getElem?_eq_some.1 hitem).1
  have hclick := click_single p i item q _ hitem hq hone
  have hopen := clickHandler_opening (Handler.mk p.faqItems.length i) p item q a hitem hq ha hclosed
  have hown : (closeOthers (Handler.mk p.faqItems.length i) p).faqItems[i]? = some item := by
    rw [closeOthers_getElem?, hitem]
    simp
  have hmeasuring : (beginOpening i (closeOthers (Handler.mk p.faqItems.length i) p)).faqItems[i]? =
      some (setMaxHeight "none" (setActive true item)) := by
    simp [beginOpening, List.getElem?_modify, hown]
  have hmeasure :
      measure (beginOpening i (closeOthers (Handler.mk p.faqItems.length i) p)).faqItems i =
        a.scrollHeight := by
    simp [measure, hmeasuring, setMaxHeight, setActive, ha]
  have hothers : ∀ (j : Nat) (other : FaqItem),
      (closeOthers (Handler.mk p.faqItems.length i) p).faqItems[j]? = some other → j ≠ i →
        other.active = false ∧ ∀ b, other.answer = some b → b.maxHeight = "0px" := by
    intro j other hj hne
    rw [closeOthers_getElem?] at hj
    cases hpj : p.faqItems[j]? with
    | none => simp [hpj] at hj
    | some it =>
      have hjl : j < p.faqItems.length := (List.getElem?_eq_some.1 hpj).1
      simp only [hpj, Option.map_some', hjl, hne, ne_eq, not_false_eq_true, and_self, if_true,
        Option.some.injEq] at hj
      subst hj
      obtain ⟨ac, o, t, qq, ans⟩ := it
      cases ans <;> simp [closeOther, setMaxHeight, setActive]
  have hfinal : ∀ j, (click i p).faqItems[j]? =
      (p.faqItems[j]?).map (clickEffect (Handler.mk p.faqItems.length i) item.active j) := by
    intro j
    rw [hclick]
    exact clickHandler_getElem? _ p item q a hitem hq ha j
  have hframes : (click i p).frames = p.frames ++ [Frame.mk i a.scrollHeight] := by
    rw [hclick, hopen, hmeasure]
  refine ⟨by rw [hclick, hopen], ⟨hothers, hown⟩, ⟨?_, ?_, hmeasure⟩, ⟨?_, ?_, hframes, ?_⟩, ?_⟩
  · simp [itemActive, hmeasuring, setMaxHeight, setActive]
  · simp [maxHeightOf, hmeasuring, setMaxHeight, setActive, ha]
  · simp [itemActive, hfinal, hitem, clickEffect, hclosed, rippleQuestion, setMaxHeight, setActive]
  · simp [maxHeightOf, hfinal, hitem, clickEffect, hclosed, rippleQuestion, setMaxHeight, setActive,
      ha]
  · intro j other hj hne
    apply hothers j other _ hne
    rw [closeOthers_getElem?]
    rw [hfinal] at hj
    cases hpj : p.faqItems[j]? with
    | none => simp [hpj] at hj
    | some it =>
      have hjl : j < p.faqItems.length := (List.getElem?_eq_some.1 hpj).1
      simp only [hpj, Option.map_some', clickEffect, hne, if_false, hjl, if_true,
        Option.some.injEq] at hj
      simp [hjl, hne, hj]
  · have hw : wired (click i p) i = true := by
      rw [wired_of_skeleton_eq (click_skeleton i p)]
      simp [wired, hitem, hq, ha]
    exact (animationFrame_last p.frames (Frame.mk i a.scrollHeight) (click i p) hframes hw).1

/-- Claim C16 on the sample page after item 1 has been opened at 60px, closed
again, and laid out anew at 90px: the callback of the next click carries 90. -/
theorem measure_then_animate_witness :
    (relaidPage.faqItems[1]? = some relaidItem ∧
        relaidItem.question = some relaidQuestion ∧
        relaidItem.answer = some relaidAnswer ∧
        relaidQuestion.clickHandlers = [Handler.mk relaidPage.faqItems.length 1] ∧
        relaidItem.active = false) ∧
      ((click 1 relaidPage =
        { beginOpening 1 (closeOthers (Handler.mk relaidPage.faqItems.length 1) relaidPage) with
          faqItems :=
            ((beginOpening 1 (closeOthers (Handler.mk relaidPage.faqItems.length 1) relaidPage)).faqItems.modify
              (setMaxHeight "0px") 1).modify rippleQuestion 1,
          frames := relaidPage.frames ++
            [Frame.mk 1
              (measure (beginOpening 1 (closeOthers (Handler.mk relaidPage.faqItems.length 1) relaidPage)).faqItems
                1)] }) ∧
      ((∀ (j : Nat) (other : FaqItem),
          (closeOthers (Handler.mk relaidPage.faqItems.length 1) relaidPage).faqItems[j]? = some other → j ≠ 1 →
            other.active = false ∧ ∀ b, other.answer = some b → b.maxHeight = "0px") ∧
        (closeOthers (Handler.mk relaidPage.faqItems.length 1) relaidPage).faqItems[1]? = some relaidItem) ∧
      (itemActive (beginOpening 1 (closeOthers (Handler.mk relaidPage.faqItems.length 1) relaidPage)) 1 = true ∧
        maxHeightOf (beginOpening 1 (closeOthers (Handler.mk relaidPage.faqItems.length 1) relaidPage)) 1 =
          some "none" ∧
        measure (beginOpening 1 (closeOthers (Handler.mk relaidPage.faqItems.length 1) relaidPage)).faqItems 1 =
          relaidAnswer.scrollHeight) ∧
      (itemActive (click 1 relaidPage) 1 = true ∧
        maxHeightOf (click 1 relaidPage) 1 = some "0px" ∧
        (click 1 relaidPage).frames = relaidPage.frames ++ [Frame.mk 1 relaidAnswer.scrollHeight] ∧
        ∀ (j : Nat) (other : FaqItem), (click 1 relaidPage).faqItems[j]? = some other → j ≠ 1 →
          other.active = false ∧ ∀ b, other.answer = some b → b.maxHeight = "0px") ∧
      maxHeightOf (animationFrame^[relaidPage.frames.length + 1] (click 1 relaidPage)) 1 =
        some (toString relaidAnswer.scrollHeight ++ "px")) :=
  ⟨⟨by decide, rfl, rfl, by decide, rfl⟩,
    measure_then_animate relaidPage 1 relaidItem relaidQuestion relaidAnswer
      (by decide) rfl rfl (by decide) rfl⟩

/-- Claim C17.  Registration: a page as served has no click listener; one run
of `initializeFAQ`, alone or as the last step of `addFAQItem`, registers one
more click listener on every wired item `i` (an item with a question and an
answer); clicks and animation frames register none.  One click on a wired item
`i` of a reachable page `p` flips its `active` class once per listener, so it
ends active exactly when (it was active) XOR (its listener count is odd), and
no other item is active afterwards.  Runs: after the first `initializeFAQ` on
a page `served` and one `addFAQItem` per entry of `entries`, an item `j` wired
as served has one listener per run, `entries.length + 1`, and the `n`-th added
item has `entries.length - n`.  Start-up: after the first `initializeFAQ` and
the five `additionalFAQs`, every item `j` wired as served has six listeners,
the `m`-th added item has `5 - m`, and a click on a closed wired item `k` opens
it exactly when its listener count is odd. -/
theorem handler_stacking (p served : Page) (i j k m n : Nat) (qAr qEn aAr aEn : String)
    (measured : Nat) (heights : Nat → Nat) (entries : List (Nat × Faq))
    (r : Reachable p) (hw : wired p i = true)
    (hf : fresh served = true) (hj : wired served j = true)
    (hc : served.faqContainer = true) (hn : n < entries.length) (hm : m < 5)
    (hk : wired (addAdditionalFAQs heights (initializeFAQ served)) k = true)
    (hclosed : itemActive (addAdditionalFAQs heights (initializeFAQ served)) k = false) :
    (listenerCount served j = 0 ∧
        listenerCount (initializeFAQ p) i = listenerCount p i + 1 ∧
        listenerCount (addFAQItem qAr qEn aAr aEn measured p) i = listenerCount p i + 1 ∧
        listenerCount (click k p) i = listenerCount p i ∧
        listenerCount (animationFrame p) i = listenerCount p i) ∧
      (listenerCount (addEntries entries heights (initializeFAQ served)) j =
          entries.length + 1 ∧
        listenerCount (addEntries entries heights (initializeFAQ served))
          (served.faqItems.length + n) = entries.length - n) ∧
      (itemActive (click i p) i =
          xor (itemActive p i) (decide (listenerCount p i % 2 = 1)) ∧
        activeFlags (click i p) =
          flagsOnly p.faqItems.length i (itemActive (click i p) i)) ∧
      (listenerCount (addAdditionalFAQs heights (initializeFAQ served)) j = 6 ∧
        listenerCount (addAdditionalFAQs heights (initializeFAQ served))
          (served.faqItems.length + m) = 5 - m ∧
        itemActive (click k (addAdditionalFAQs heights (initializeFAQ served))) k =
          decide (listenerCount (addAdditionalFAQs heights (initializeFAQ served)) k % 2 = 1)) := by
  have hold : ∀ es : List (Nat × Faq),
      listenerCount (addEntries es heights (initializeFAQ served)) j = es.length + 1 := by
    intro es
    have h1 := (foldl_addFAQItem_old es heights (initializeFAQ served) j
      (by rw [wired_initializeFAQ]; exact hj)).2
    rw [listenerCount_initializeFAQ served j hj, listenerCount_fresh served hf j] at h1
    unfold addEntries
    omega
  have hnew : ∀ (es : List (Nat × Faq)) (x : Nat), x < es.length →
      listenerCount (addEntries es heights (initializeFAQ served)) (served.faqItems.length + x) =
        es.length - x := by
    intro es x hx
    have h1 := (foldl_addFAQItem_new es heights (initializeFAQ served)
      (by simpa [initializeFAQ] using hc) x hx).2
    rw [initializeFAQ_length] at h1
    exact h1
  refine ⟨⟨listenerCount_fresh served hf j, listenerCount_initializeFAQ p i hw,
    listenerCount_addFAQItem _ _ _ _ _ p i hw,
    listenerCount_of_skeleton_eq (click_skeleton k p) i,
    listenerCount_of_skeleton_eq (animationFrame_skeleton p) i⟩,
    ⟨hold entries, hnew entries n hn⟩,
    ⟨click_itemActive r i hw, click_activeFlags r i hw⟩, ?_, ?_, ?_⟩
  · exact hold additionalFAQs.enum
  · have h1 := hnew additionalFAQs.enum m (by rw [additionalFAQs_enum_length]; exact hm)
    rw [additionalFAQs_enum_length] at h1
    exact h1
  · have rs : Reachable (addAdditionalFAQs heights (initializeFAQ served)) :=
      addAdditionalFAQs_reachable _ _ (Reachable.load served hf)
    rw [click_itemActive rs k hk, hclosed]
    simp

/-- Claim C17 with the sample page as served and its page after start-up as
the reachable page. -/
theorem handler_stacking_witness :
    (Reachable startedPage ∧ wired startedPage 0 = true ∧ fresh samplePage = true ∧
        wired samplePage 1 = true ∧ samplePage.faqContainer = true ∧
        4 < additionalFAQs.enum.length ∧ 1 < 5 ∧
        wired (addAdditionalFAQs (fun _ => 120) (initializeFAQ samplePage)) 3 = true ∧
        itemActive (addAdditionalFAQs (fun _ => 120) (initializeFAQ samplePage)) 3 = false) ∧
      ((listenerCount samplePage 1 = 0 ∧
        listenerCount (initializeFAQ startedPage) 0 = listenerCount startedPage 0 + 1 ∧
        listenerCount (addFAQItem "س" "Q" "ج" "A" 50 startedPage) 0 = listenerCount startedPage 0 + 1 ∧
        listenerCount (click 3 startedPage) 0 = listenerCount startedPage 0 ∧
        listenerCount (animationFrame startedPage) 0 = listenerCount startedPage 0) ∧
      (listenerCount (addEntries additionalFAQs.enum (fun _ => 120) (initializeFAQ samplePage)) 1 =
          additionalFAQs.enum.length + 1 ∧
        listenerCount (addEntries additionalFAQs.enum (fun _ => 120) (initializeFAQ samplePage))
          (samplePage.faqItems.length + 4) = additionalFAQs.enum.length - 4) ∧
      (itemActive (click 0 startedPage) 0 =
          xor (itemActive startedPage 0) (decide (listenerCount startedPage 0 % 2 = 1)) ∧
        activeFlags (click 0 startedPage) =
          flagsOnly startedPage.faqItems.length 0 (itemActive (click 0 startedPage) 0)) ∧
      (listenerCount (addAdditionalFAQs (fun _ => 120) (initializeFAQ samplePage)) 1 = 6 ∧
        listenerCount (addAdditionalFAQs (fun _ => 120) (initializeFAQ samplePage))
          (samplePage.faqItems.length + 1) = 5 - 1 ∧
        itemActive (click 3 (addAdditionalFAQs (fun _ => 120) (initializeFAQ samplePage))) 3 =
          decide (listenerCount (addAdditionalFAQs (fun _ => 120) (initializeFAQ samplePage)) 3 % 2 = 1))) :=
  have r : Reachable startedPage :=
    addAdditionalFAQs_reachable _ _ (Reachable.load samplePage (by decide))
  ⟨⟨r, by decide, by decide, by decide, rfl, by decide, by decide, by decide, by decide⟩,
    handler_stacking startedPage samplePage 0 1 3 1 4 "س" "Q" "ج" "A" 50 (fun _ => 120)
      additionalFAQs.enum r (by decide) (by decide) (by decide) rfl (by decide) (by decide)
      (by decide) (by decide)⟩

end App
